import Mathlib

/-!
# render-playground: shader wrapper and render loop

A shallow embedding of `include/Shader.hpp` and `src/main.cpp`.

The C++ code drives three collaborators that are not part of the repository
sources: the OpenGL context, SDL (event queue, keyboard snapshot, tick counter,
window) and the standard output stream.  They are modelled as one explicit
`World` value that every operation takes and returns.  Every call made to a
collaborator is appended to `World.calls`, so that the order of calls can be
stated; the objects of the OpenGL context (shader objects, program objects, the
active program and the pending error flags) are kept as tables.

Outcomes that only the graphics driver decides (does a source compile, does a
set of stages link, where does a uniform live) are fields of `Driver`.
-/

namespace RenderPlayground

/-! ## OpenGL context -/

abbrev GLuint := Nat
abbrev GLenum := Nat
abbrev GLint := Int

def GL_NO_ERROR : GLenum := 0
def GL_INVALID_VALUE : GLenum := 0x0501
def GL_INVALID_OPERATION : GLenum := 0x0502

/-- The two stage kinds `Shader::CompileShader` is ever called with. -/
inductive StageType where
  | GL_VERTEX_SHADER
  | GL_FRAGMENT_SHADER
deriving DecidableEq, Repr

/-- Directions of `Camera::ProcessKeyboard` (the `Camera_Movement` enumerators used in `Input`). -/
inductive Camera_Movement where
  | FORWARD
  | BACKWARD
  | LEFT
  | RIGHT
deriving DecidableEq, Repr

/-- The events `Input` distinguishes in its `switch (e.type)`; `other` is every type without a case. -/
inductive SDL_Event where
  | SDL_QUIT
  | SDL_MOUSEWHEEL (y : Int)
  | SDL_MOUSEBUTTONDOWN (button : Nat)
  | SDL_MOUSEMOTION (xrel yrel : Int)
  | other (type : Nat)
deriving DecidableEq, Repr

def SDL_BUTTON_LEFT : Nat := 1

/-- One call made to a collaborator, with the arguments (and for object creation the result)
that matter for the order and the target of the call. -/
inductive Call where
  | glCreateProgram (result : GLuint)
  | glCreateShader (type : StageType) (result : GLuint)
  | glShaderSource (shader : GLuint) (source : String)
  | glCompileShader (shader : GLuint)
  | glGetShaderiv (shader : GLuint)
  | glGetShaderInfoLog (shader : GLuint)
  | glDeleteShader (shader : GLuint)
  | glAttachShader (program shader : GLuint)
  | glLinkProgram (program : GLuint)
  | glValidateProgram (program : GLuint)
  | glDetachShader (program shader : GLuint)
  | glUseProgram (program : GLuint)
  | glGetUniformLocation (program : GLuint) (name : String)
  | glUniformMatrix4fv (location : GLint)
  | glGetError
  | glViewport (width height : Int)
  | glClearColor
  | glClear
  | SDL_GetTicks (result : Nat)
  | SDL_PollEvent (result : Option SDL_Event)
  | SDL_RaiseWindow
  | SDL_SetRelativeMouseMode
  | SDL_GetKeyboardState
  | SDL_GL_SwapWindow
  | Camera_ProcessMouseScroll (yoffset : Int)
  | Camera_ProcessMouseMovement (xoffset yoffset : Int)
  | Camera_ProcessKeyboard (direction : Camera_Movement) (deltaTime : ℚ) (sprintAtCall : Bool)
  | Camera_setSprint (value : Bool)
  | Model_Draw (program : GLuint)
deriving DecidableEq

structure ShaderObject where
  name : GLuint
  type : StageType
  source : String
  compileStatus : Bool
  deleteStatus : Bool
deriving DecidableEq, Repr

structure ProgramObject where
  name : GLuint
  attached : List GLuint
  linkStatus : Bool
deriving DecidableEq, Repr

/-- What the graphics driver decides. `links` sees the type and source of every attached stage. -/
structure Driver where
  compiles : StageType → String → Bool
  infoLog : StageType → String → String
  links : List (StageType × String) → Bool
  uniformLocation : GLuint → String → GLint

/-- The OpenGL context, the standard output and the record of calls. -/
structure World where
  nextName : GLuint
  shaders : List ShaderObject
  programs : List ProgramObject
  current : GLuint
  uniformWrites : List (GLuint × GLint)
  errors : List GLenum
  stdout : List String
  calls : List Call

def World.isShader (w : World) (n : GLuint) : Bool :=
  w.shaders.any (fun so => so.name == n)

def World.isProgram (w : World) (n : GLuint) : Bool :=
  w.programs.any (fun po => po.name == n)

/-- Is shader `s` attached to some program object. -/
def World.isAttached (w : World) (s : GLuint) : Bool :=
  w.programs.any (fun po => po.attached.contains s)

def World.isAttachedTo (w : World) (p s : GLuint) : Bool :=
  w.programs.any (fun po => po.name == p && po.attached.contains s)

/-- The program object `n` exists and its last link succeeded. -/
def World.isLinked (w : World) (n : GLuint) : Bool :=
  w.programs.any (fun po => po.name == n && po.linkStatus)

def World.call (w : World) (c : Call) : World :=
  { w with calls := w.calls ++ [c] }

def World.raise (w : World) (e : GLenum) : World :=
  { w with errors := w.errors ++ [e] }

def World.print (w : World) (s : String) : World :=
  { w with stdout := w.stdout ++ [s] }

def glCreateProgram (w : World) : GLuint × World :=
  let n := w.nextName
  (n, { w with nextName := n + 1
               programs := w.programs ++ [{ name := n, attached := [], linkStatus := false }]
               calls := w.calls ++ [Call.glCreateProgram n] })

def glCreateShader (type : StageType) (w : World) : GLuint × World :=
  let n := w.nextName
  (n, { w with nextName := n + 1
               shaders := w.shaders ++
                 [{ name := n, type := type, source := "", compileStatus := false,
                    deleteStatus := false }]
               calls := w.calls ++ [Call.glCreateShader type n] })

def glShaderSource (shader : GLuint) (source : String) (w : World) : World :=
  let w := w.call (Call.glShaderSource shader source)
  if w.isShader shader then
    { w with shaders := w.shaders.map
               (fun so => if so.name = shader then { so with source := source } else so) }
  else w.raise GL_INVALID_VALUE

def glCompileShader (d : Driver) (shader : GLuint) (w : World) : World :=
  let w := w.call (Call.glCompileShader shader)
  if w.isShader shader then
    { w with shaders := w.shaders.map
               (fun so => if so.name = shader
                          then { so with compileStatus := d.compiles so.type so.source }
                          else so) }
  else w.raise GL_INVALID_VALUE

/-- The `GL_COMPILE_STATUS` query. For a name that is no shader object the call raises an error and
writes nothing; `CompileShader` only ever asks about the object it has just created. -/
def glGetShaderiv_COMPILE_STATUS (shader : GLuint) (w : World) : Option Bool × World :=
  let w := w.call (Call.glGetShaderiv shader)
  match w.shaders.find? (fun so => so.name == shader) with
  | some so => (some so.compileStatus, w)
  | none => (none, w.raise GL_INVALID_VALUE)

/-- The `GL_INFO_LOG_LENGTH` query; the length only sizes the buffer the log is copied to. -/
def glGetShaderiv_INFO_LOG_LENGTH (d : Driver) (shader : GLuint) (w : World) : Nat × World :=
  let w := w.call (Call.glGetShaderiv shader)
  match w.shaders.find? (fun so => so.name == shader) with
  | some so => ((d.infoLog so.type so.source).length + 1, w)
  | none => (0, w.raise GL_INVALID_VALUE)

def glGetShaderInfoLog (d : Driver) (shader : GLuint) (w : World) : String × World :=
  let w := w.call (Call.glGetShaderInfoLog shader)
  match w.shaders.find? (fun so => so.name == shader) with
  | some so => (d.infoLog so.type so.source, w)
  | none => ("", w.raise GL_INVALID_VALUE)

/-- Deleting name 0 is silently ignored; a shader that is still attached is only flagged. -/
def glDeleteShader (shader : GLuint) (w : World) : World :=
  let w := w.call (Call.glDeleteShader shader)
  if shader = 0 then w
  else if !w.isShader shader then w.raise GL_INVALID_VALUE
  else if w.isAttached shader then
    { w with shaders := w.shaders.map
               (fun so => if so.name = shader then { so with deleteStatus := true } else so) }
  else { w with shaders := w.shaders.filter (fun so => so.name != shader) }

def glAttachShader (program shader : GLuint) (w : World) : World :=
  let w := w.call (Call.glAttachShader program shader)
  if !w.isProgram program || !w.isShader shader then w.raise GL_INVALID_VALUE
  else if w.isAttachedTo program shader then w.raise GL_INVALID_OPERATION
  else { w with programs := w.programs.map
                  (fun po => if po.name = program
                             then { po with attached := po.attached ++ [shader] } else po) }

/-- The type and source of the shader objects in `names`, in order. -/
def World.stagesOf (w : World) (names : List GLuint) : List (StageType × String) :=
  names.filterMap (fun n => (w.shaders.find? (fun so => so.name == n)).map
    (fun so => (so.type, so.source)))

def glLinkProgram (d : Driver) (program : GLuint) (w : World) : World :=
  let w := w.call (Call.glLinkProgram program)
  if w.isProgram program then
    { w with programs := w.programs.map
               (fun po => if po.name = program
                          then { po with linkStatus := d.links (w.stagesOf po.attached) }
                          else po) }
  else w.raise GL_INVALID_VALUE

/-- Validation only sets the program's validate status, which nothing in the sources reads. -/
def glValidateProgram (program : GLuint) (w : World) : World :=
  let w := w.call (Call.glValidateProgram program)
  if w.isProgram program then w else w.raise GL_INVALID_VALUE

/-- Detaching a shader that was flagged for deletion deletes it. -/
def glDetachShader (program shader : GLuint) (w : World) : World :=
  let w := w.call (Call.glDetachShader program shader)
  if !w.isProgram program || !w.isShader shader then w.raise GL_INVALID_VALUE
  else if !w.isAttachedTo program shader then w.raise GL_INVALID_OPERATION
  else
    let w := { w with programs := w.programs.map
                        (fun po => if po.name = program
                                   then { po with attached := po.attached.filter (· != shader) }
                                   else po) }
    if w.shaders.any (fun so => so.name == shader && so.deleteStatus) && !w.isAttached shader then
      { w with shaders := w.shaders.filter (fun so => so.name != shader) }
    else w

/-- A program that is not linked cannot be made current: the call raises an error and the
active program stays what it was. -/
def glUseProgram (program : GLuint) (w : World) : World :=
  let w := w.call (Call.glUseProgram program)
  if program = 0 then { w with current := 0 }
  else if !w.isProgram program then w.raise GL_INVALID_VALUE
  else if !w.isLinked program then w.raise GL_INVALID_OPERATION
  else { w with current := program }

def glGetUniformLocation (d : Driver) (program : GLuint) (name : String) (w : World) :
    GLint × World :=
  let w := w.call (Call.glGetUniformLocation program name)
  if !w.isProgram program then (-1, w.raise GL_INVALID_VALUE)
  else if !w.isLinked program then (-1, w.raise GL_INVALID_OPERATION)
  else (d.uniformLocation program name, w)

/-- The write goes to the active program, whatever program the location was looked up in.
Without an active program the call raises an error; location -1 is silently ignored. -/
def glUniformMatrix4fv (location : GLint) (w : World) : World :=
  let w := w.call (Call.glUniformMatrix4fv location)
  if w.current = 0 then w.raise GL_INVALID_OPERATION
  else if location = -1 then w
  else { w with uniformWrites := w.uniformWrites ++ [(w.current, location)] }

def glGetError (w : World) : GLenum × World :=
  let w := w.call Call.glGetError
  match w.errors with
  | [] => (GL_NO_ERROR, w)
  | e :: es => (e, { w with errors := es })

/-! ## include/Shader.hpp -/

/-- The files that can be opened, with their content. -/
abbrev FileSystem := String → Option String

/-- The `while (std::getline(myFile, line)) result += line + '\n'` loop over the characters left in
the stream: `line` holds the characters of the line being read. At the end of the stream a pending
non-empty line is still delivered; an empty one is the failed read that ends the loop. -/
def getlineLoop : List Char → List Char → List Char → List Char
  | [], line, result => if line = [] then result else result ++ line ++ ['\n']
  | c :: cs, line, result =>
    if c = '\n' then getlineLoop cs [] (result ++ line ++ ['\n'])
    else getlineLoop cs (line ++ [c]) result

def LoadShaderAsString (fs : FileSystem) (filename : String) : String :=
  match fs filename with
  | some content => String.mk (getlineLoop content.data [] [])
  | none => ""

def compileErrorMessage (type : StageType) (errorMessages : String) : String :=
  match type with
  | StageType.GL_VERTEX_SHADER =>
    "ERROR: GL_VERTEX_SHADER compilation failed!\n" ++ errorMessages ++ "\n"
  | StageType.GL_FRAGMENT_SHADER =>
    "ERROR: GL_FRAGMENT_SHADER compilation failed!\n" ++ errorMessages ++ "\n"

def CompileShader (d : Driver) (type : StageType) (source : String) (w : World) :
    GLuint × World :=
  let (shaderObject, w) :=
    match type with
    | StageType.GL_VERTEX_SHADER => glCreateShader StageType.GL_VERTEX_SHADER w
    | StageType.GL_FRAGMENT_SHADER => glCreateShader StageType.GL_FRAGMENT_SHADER w
  let w := glShaderSource shaderObject source w
  let w := glCompileShader d shaderObject w
  let (result, w) := glGetShaderiv_COMPILE_STATUS shaderObject w
  if result = some false then
    let (_length, w) := glGetShaderiv_INFO_LOG_LENGTH d shaderObject w
    let (errorMessages, w) := glGetShaderInfoLog d shaderObject w
    let w := w.print (compileErrorMessage type errorMessages)
    let w := glDeleteShader shaderObject w
    (0, w)
  else (shaderObject, w)

structure Shader where
  ID : GLuint
deriving DecidableEq, Repr

/-- The constructor `Shader::Shader(vFileName, fFileName)`. -/
def Shader.new (d : Driver) (fs : FileSystem) (vFileName fFileName : String) (w : World) :
    Shader × World :=
  let vertexShaderSource := LoadShaderAsString fs vFileName
  let fragmentShaderSource := LoadShaderAsString fs fFileName
  let (ID, w) := glCreateProgram w
  let (myVertexShader, w) := CompileShader d StageType.GL_VERTEX_SHADER vertexShaderSource w
  let (myFragmentShader, w) := CompileShader d StageType.GL_FRAGMENT_SHADER fragmentShaderSource w
  let w := glAttachShader ID myVertexShader w
  let w := glAttachShader ID myFragmentShader w
  let w := glLinkProgram d ID w
  let w := glValidateProgram ID w
  let w := glDetachShader ID myVertexShader w
  let w := glDetachShader ID myFragmentShader w
  let w := glDeleteShader myVertexShader w
  let w := glDeleteShader myFragmentShader w
  ({ ID := ID }, w)

def Shader.use (s : Shader) (w : World) : World :=
  glUseProgram s.ID w

def Shader.setMat4 (d : Driver) (s : Shader) (name : String) (w : World) : World :=
  let (location, w) := glGetUniformLocation d s.ID name w
  glUniformMatrix4fv location w

/-! ## src/main.cpp -/

/-- Modelled from the spec: `Camera.hpp` is not among the sources. The spec gives the camera a
sprint flag that scales the speed of keyboard movement; the flag is the only part of the camera
state kept here. Every update call is recorded in `World.calls`, a movement together with the sprint
flag in force when it is applied. -/
structure Camera where
  Sprint : Bool
deriving DecidableEq, Repr

/-- The entries of the `SDL_GetKeyboardState` snapshot that `Input` reads. -/
structure KeyboardState where
  SDL_SCANCODE_W : Bool
  SDL_SCANCODE_S : Bool
  SDL_SCANCODE_D : Bool
  SDL_SCANCODE_A : Bool
  SDL_SCANCODE_LSHIFT : Bool
deriving DecidableEq, Repr

/-- What the collaborators deliver during one pass of the render loop: the tick counter read at
its top, the events pending when `Input` polls, the keyboard snapshot, the error codes the
OpenGL command at a given line of `main.cpp` raises, and the program `Model::Draw` leaves
active when it switches programs (`model.h` is not among the sources). -/
structure FrameInput where
  ticks : Nat
  events : List SDL_Event
  state : KeyboardState
  faults : Nat → List GLenum
  drawActivates : Option GLuint

/-- The globals of `main.cpp`, the locals of `main` that the loop reads, and the world. Floats are
idealised as rationals: binary32 rounding is not modelled. -/
structure App where
  gScreenWidth : Int
  gScreenHeight : Int
  camera : Camera
  deltaTime : ℚ
  lastFrame : ℚ
  gQuit : Bool
  ourShader : Shader
  world : World

def App.call (a : App) (c : Call) : App :=
  { a with world := a.world.call c }

/-- The error codes raised by the OpenGL command issued at `line` become pending. -/
def App.fault (a : App) (f : FrameInput) (line : Nat) : App :=
  { a with world := { a.world with errors := a.world.errors ++ f.faults line } }

/-- Modelled from the spec: `Camera::ProcessMouseScroll`, of the absent `Camera.hpp`. -/
def Camera.ProcessMouseScroll (yoffset : Int) (a : App) : App :=
  a.call (Call.Camera_ProcessMouseScroll yoffset)

/-- Modelled from the spec: `Camera::ProcessMouseMovement`, of the absent `Camera.hpp`. -/
def Camera.ProcessMouseMovement (xoffset yoffset : Int) (a : App) : App :=
  a.call (Call.Camera_ProcessMouseMovement xoffset yoffset)

/-- Modelled from the spec: `Camera::ProcessKeyboard`, of the absent `Camera.hpp`. The movement is
scaled by the sprint factor exactly when the camera's sprint flag is set at the call. -/
def Camera.ProcessKeyboard (direction : Camera_Movement) (deltaTime : ℚ) (a : App) : App :=
  a.call (Call.Camera_ProcessKeyboard direction deltaTime a.camera.Sprint)

/-- Modelled from the spec: `Camera::setSprint`, of the absent `Camera.hpp`. -/
def Camera.setSprint (value : Bool) (a : App) : App :=
  { a with camera := { a.camera with Sprint := value }
           world := a.world.call (Call.Camera_setSprint value) }

def GLClearAllErrors_loop : Nat → World → World
  | 0, w => w
  | fuel + 1, w =>
    let (error, w) := glGetError w
    if error != GL_NO_ERROR then GLClearAllErrors_loop fuel w else w

/-- The loop `while (glGetError() != GL_NO_ERROR)`: every pass removes one pending flag, so one
pass more than there are flags ends it. -/
def GLClearAllErrors (w : World) : World :=
  GLClearAllErrors_loop (w.errors.length + 1) w

def errorLine (error : GLenum) (line : Nat) (function : String) : String :=
  "OpenGL Error:" ++ toString error ++ "\tLine: " ++ toString line ++
    "\tfunction: " ++ function ++ "\n"

/-- The body of the `while` returns on its first pass, so at most one flag is read. -/
def GLCheckErrorStatus (function : String) (line : Nat) (w : World) : Bool × World :=
  let (error, w) := glGetError w
  if error != 0 then (true, w.print (errorLine error line function))
  else (false, w)

/-- The macro `GLCheck(x)`, with `text` the spelling of `x` and `line` its line. -/
def GLCheck (x : World → World) (text : String) (line : Nat) (w : World) : World :=
  let w := GLClearAllErrors w
  let w := x w
  (GLCheckErrorStatus text line w).2

/-- The body of the `switch (e.type)` in `Input`. -/
def handleEvent (e : SDL_Event) (a : App) : App :=
  match e with
  | SDL_Event.SDL_QUIT =>
    let a := { a with world := a.world.print "Goodbye!\n" }
    { a with gQuit := true }
  | SDL_Event.SDL_MOUSEWHEEL y => Camera.ProcessMouseScroll y a
  | SDL_Event.SDL_MOUSEBUTTONDOWN button =>
    if button = SDL_BUTTON_LEFT then
      let a := a.call Call.SDL_RaiseWindow
      a.call Call.SDL_SetRelativeMouseMode
    else a
  | SDL_Event.SDL_MOUSEMOTION xrel yrel =>
    let mouseX := xrel
    let mouseY := yrel
    Camera.ProcessMouseMovement mouseX (-mouseY) a
  | SDL_Event.other _ => a

/-- The loop `while (SDL_PollEvent(&e) != 0)` over the pending events: each poll hands out the
oldest one, the poll on the empty queue returns 0 and ends the loop. -/
def pollEvents : List SDL_Event → App → App
  | [], a => a.call (Call.SDL_PollEvent none)
  | e :: pending, a => pollEvents pending (handleEvent e (a.call (Call.SDL_PollEvent (some e))))

def Input (f : FrameInput) (a : App) : App :=
  let a := pollEvents f.events a
  let a := a.call Call.SDL_GetKeyboardState
  let state := f.state
  let a := if state.SDL_SCANCODE_W then Camera.ProcessKeyboard Camera_Movement.FORWARD a.deltaTime a else a
  let a := if state.SDL_SCANCODE_S then Camera.ProcessKeyboard Camera_Movement.BACKWARD a.deltaTime a else a
  let a := if state.SDL_SCANCODE_D then Camera.ProcessKeyboard Camera_Movement.RIGHT a.deltaTime a else a
  let a := if state.SDL_SCANCODE_A then Camera.ProcessKeyboard Camera_Movement.LEFT a.deltaTime a else a
  if state.SDL_SCANCODE_LSHIFT then Camera.setSprint true a
  else Camera.setSprint false a

/-- The call `ourModel.Draw(ourShader)`: `model.h` is not among the sources, so the call is
one opaque step that may leave another program active. -/
def Model.Draw (f : FrameInput) (shader : Shader) (w : World) : World :=
  let w := w.call (Call.Model_Draw shader.ID)
  match f.drawActivates with
  | some p => { w with current := p }
  | none => w

/-- One pass through the body of `while (!gQuit)` in `main` (lines 217 to 247). -/
def loopBody (d : Driver) (f : FrameInput) (a : App) : App :=
  let a := a.call (Call.SDL_GetTicks f.ticks)
  let currentFrame : ℚ := (f.ticks : ℚ)
  let a := { a with deltaTime := (currentFrame - a.lastFrame) / 1000 }
  let a := { a with lastFrame := currentFrame }
  let a := Input f a
  let a := (a.call (Call.glViewport a.gScreenWidth a.gScreenHeight)).fault f 225
  let a := (a.call Call.glClearColor).fault f 227
  let a := (a.call Call.glClear).fault f 228
  let a := ({ a with world := a.ourShader.use a.world }).fault f 230
  let a := ({ a with world := a.ourShader.setMat4 d "projection" a.world }).fault f 234
  let a := ({ a with world := a.ourShader.setMat4 d "view" a.world }).fault f 235
  let a := ({ a with world := a.ourShader.setMat4 d "model" a.world }).fault f 241
  let a := ({ a with world := Model.Draw f a.ourShader a.world }).fault f 242
  a.call Call.SDL_GL_SwapWindow

/-- Lines 217 to 230 of the loop body: the pass up to and including `ourShader.use()`. -/
def loopBodyThroughUse (f : FrameInput) (a : App) : App :=
  let a := a.call (Call.SDL_GetTicks f.ticks)
  let currentFrame : ℚ := (f.ticks : ℚ)
  let a := { a with deltaTime := (currentFrame - a.lastFrame) / 1000 }
  let a := { a with lastFrame := currentFrame }
  let a := Input f a
  let a := (a.call (Call.glViewport a.gScreenWidth a.gScreenHeight)).fault f 225
  let a := (a.call Call.glClearColor).fault f 227
  let a := (a.call Call.glClear).fault f 228
  ({ a with world := a.ourShader.use a.world }).fault f 230

/-- Lines 232 to 245 of the loop body: the three `setMat4` calls, the draw and the swap. -/
def loopBodyFromUniforms (d : Driver) (f : FrameInput) (a : App) : App :=
  let a := ({ a with world := a.ourShader.setMat4 d "projection" a.world }).fault f 234
  let a := ({ a with world := a.ourShader.setMat4 d "view" a.world }).fault f 235
  let a := ({ a with world := a.ourShader.setMat4 d "model" a.world }).fault f 241
  let a := ({ a with world := Model.Draw f a.ourShader a.world }).fault f 242
  a.call Call.SDL_GL_SwapWindow

/-- The world in which each of the three `setMat4` calls of a pass (lines 234, 235 and 241) is
entered, in order. -/
def setMat4Sites (d : Driver) (f : FrameInput) (a : App) : List World :=
  let a1 := loopBodyThroughUse f a
  let a2 := ({ a1 with world := a1.ourShader.setMat4 d "projection" a1.world }).fault f 234
  let a3 := ({ a2 with world := a2.ourShader.setMat4 d "view" a2.world }).fault f 235
  [a1.world, a2.world, a3.world]

/-- The loop `while (!gQuit)` of `main`, run over the inputs of the passes observed. The condition
is tested before each pass; when the inputs run out the observation ends, not the program. -/
def renderLoop (d : Driver) : List FrameInput → App → App
  | [], a => a
  | f :: later, a => if a.gQuit then a else renderLoop d later (loopBody d f a)

/-- The globals of `main.cpp` as initialised at lines 25 to 38, around a given shader and world. -/
def App.initial (ourShader : Shader) (w : World) : App :=
  { gScreenWidth := 1920, gScreenHeight := 1080, camera := { Sprint := false },
    deltaTime := 0, lastFrame := 0, gQuit := false, ourShader := ourShader, world := w }

/-- The function `main` from the construction of the shaders on, over a context in which
`InitializeProgram` succeeded. The construction of `ourModel` is left out, `model.h` not being
among the sources; the camera's constructor is taken to leave the sprint flag clear. -/
def main (d : Driver) (fs : FileSystem) (frames : List FrameInput) (w : World) : App :=
  let (ourShader, w) :=
    Shader.new d fs "../../shaders/model-loading-vs.glsl" "../../shaders/model-loading-fs.glsl" w
  let (_lightCubeShader, w) :=
    Shader.new d fs "../../shaders/light-cube-vs.glsl" "../../shaders/light-cube-fs.glsl" w
  renderLoop d frames (App.initial ourShader w)

/-- The calls that put something on screen: clear, uniform set, model draw, buffer swap. -/
def Call.isRender : Call → Bool
  | Call.glClear => true
  | Call.glUniformMatrix4fv _ => true
  | Call.Model_Draw _ => true
  | Call.SDL_GL_SwapWindow => true
  | _ => false

/-- Names handed out so far are positive and below `nextName`: 0 is never an object. -/
def World.WF (w : World) : Prop :=
  0 < w.nextName ∧
  (∀ so ∈ w.shaders, 0 < so.name ∧ so.name < w.nextName) ∧
  (∀ po ∈ w.programs, po.name < w.nextName ∧ ∀ s ∈ po.attached, s < w.nextName)

/-- A fresh context: no objects, no program active, nothing printed. -/
def World.fresh : World :=
  { nextName := 1, shaders := [], programs := [], current := 0, uniformWrites := [],
    errors := [], stdout := [], calls := [] }

/-- The stages that compiled, as the link step sees them. -/
def compiledStages (d : Driver) (vsrc fsrc : String) : List (StageType × String) :=
  (if d.compiles StageType.GL_VERTEX_SHADER vsrc then [(StageType.GL_VERTEX_SHADER, vsrc)] else [])
  ++ (if d.compiles StageType.GL_FRAGMENT_SHADER fsrc then [(StageType.GL_FRAGMENT_SHADER, fsrc)]
      else [])

/-- The calls `CompileShader` makes for one stage whose object gets the name `name`. -/
def stageCalls (d : Driver) (type : StageType) (source : String) (name : GLuint) : List Call :=
  [Call.glCreateShader type name, Call.glShaderSource name source, Call.glCompileShader name,
    Call.glGetShaderiv name] ++
  (if d.compiles type source then []
   else [Call.glGetShaderiv name, Call.glGetShaderInfoLog name, Call.glDeleteShader name])

/-- The handle `CompileShader` returns for that stage. -/
def stageHandle (d : Driver) (type : StageType) (source : String) (name : GLuint) : GLuint :=
  if d.compiles type source then name else 0

/-- What one stage prints. -/
def stageOutput (d : Driver) (type : StageType) (source : String) : List String :=
  if d.compiles type source then []
  else [compileErrorMessage type (d.infoLog type source)]

/-! ## Descriptions of what one pass of the loop does, proved below to be what the code does -/

/-- The calls the `switch` in `Input` makes for one event. -/
def eventCalls : SDL_Event → List Call
  | SDL_Event.SDL_QUIT => []
  | SDL_Event.SDL_MOUSEWHEEL y => [Call.Camera_ProcessMouseScroll y]
  | SDL_Event.SDL_MOUSEBUTTONDOWN button =>
    if button = SDL_BUTTON_LEFT then [Call.SDL_RaiseWindow, Call.SDL_SetRelativeMouseMode] else []
  | SDL_Event.SDL_MOUSEMOTION xrel yrel => [Call.Camera_ProcessMouseMovement xrel (-yrel)]
  | SDL_Event.other _ => []

/-- The polls of the event loop of `Input` with the calls each event leads to. -/
def pollCalls : List SDL_Event → List Call
  | [] => [Call.SDL_PollEvent none]
  | e :: pending => Call.SDL_PollEvent (some e) :: (eventCalls e ++ pollCalls pending)

/-- What the event loop of `Input` prints. -/
def pollOutput : List SDL_Event → List String
  | [] => []
  | e :: pending => (if e = SDL_Event.SDL_QUIT then ["Goodbye!\n"] else []) ++ pollOutput pending

/-- The calls of the keyboard part of `Input`, on a camera whose sprint flag is `sprint` when
`Input` is entered. -/
def keyboardCalls (state : KeyboardState) (deltaTime : ℚ) (sprint : Bool) : List Call :=
  [Call.SDL_GetKeyboardState] ++
  (if state.SDL_SCANCODE_W
   then [Call.Camera_ProcessKeyboard Camera_Movement.FORWARD deltaTime sprint] else []) ++
  (if state.SDL_SCANCODE_S
   then [Call.Camera_ProcessKeyboard Camera_Movement.BACKWARD deltaTime sprint] else []) ++
  (if state.SDL_SCANCODE_D
   then [Call.Camera_ProcessKeyboard Camera_Movement.RIGHT deltaTime sprint] else []) ++
  (if state.SDL_SCANCODE_A
   then [Call.Camera_ProcessKeyboard Camera_Movement.LEFT deltaTime sprint] else []) ++
  [Call.Camera_setSprint state.SDL_SCANCODE_LSHIFT]

/-- The location `glGetUniformLocation` returns for `name` in program `ID`. -/
def locationOf (d : Driver) (w : World) (ID : GLuint) (name : String) : GLint :=
  if !w.isProgram ID then -1 else if !w.isLinked ID then -1 else d.uniformLocation ID name

/-- The active program after `glUseProgram ID`. -/
def activeAfterUse (w : World) (ID : GLuint) : GLuint :=
  if ID = 0 then 0 else if !w.isProgram ID then w.current
  else if !w.isLinked ID then w.current else ID

/-- The calls of the rendering part of the loop body, lines 225 to 245. -/
def renderCalls (d : Driver) (a : App) : List Call :=
  [Call.glViewport a.gScreenWidth a.gScreenHeight, Call.glClearColor, Call.glClear,
   Call.glUseProgram a.ourShader.ID,
   Call.glGetUniformLocation a.ourShader.ID "projection",
   Call.glUniformMatrix4fv (locationOf d a.world a.ourShader.ID "projection"),
   Call.glGetUniformLocation a.ourShader.ID "view",
   Call.glUniformMatrix4fv (locationOf d a.world a.ourShader.ID "view"),
   Call.glGetUniformLocation a.ourShader.ID "model",
   Call.glUniformMatrix4fv (locationOf d a.world a.ourShader.ID "model"),
   Call.Model_Draw a.ourShader.ID, Call.SDL_GL_SwapWindow]

/-- The uniform write one `setMat4` performs when `active` is the active program. -/
def writeOf (active : GLuint) (location : GLint) : List (GLuint × GLint) :=
  if active = 0 then [] else if location = -1 then [] else [(active, location)]

/-- The errors the OpenGL semantics itself raises for `glUseProgram ID`. -/
def useErrors (w : World) (ID : GLuint) : List GLenum :=
  if ID = 0 then [] else if !w.isProgram ID then [GL_INVALID_VALUE]
  else if !w.isLinked ID then [GL_INVALID_OPERATION] else []

/-- The errors the OpenGL semantics itself raises for one `setMat4` when `active` is the active
program. -/
def setMat4Errors (w : World) (active ID : GLuint) : List GLenum :=
  (if !w.isProgram ID then [GL_INVALID_VALUE]
   else if !w.isLinked ID then [GL_INVALID_OPERATION] else []) ++
  (if active = 0 then [GL_INVALID_OPERATION] else [])

/-- The error flags one pass of the loop body adds. -/
def frameErrors (f : FrameInput) (a : App) : List GLenum :=
  f.faults 225 ++ f.faults 227 ++ f.faults 228 ++
  useErrors a.world a.ourShader.ID ++ f.faults 230 ++
  setMat4Errors a.world (activeAfterUse a.world a.ourShader.ID) a.ourShader.ID ++
  f.faults 234 ++
  setMat4Errors a.world (activeAfterUse a.world a.ourShader.ID) a.ourShader.ID ++
  f.faults 235 ++
  setMat4Errors a.world (activeAfterUse a.world a.ourShader.ID) a.ourShader.ID ++
  f.faults 241 ++
  f.faults 242

/-- The calls of one pass of the loop body. -/
def frameCalls (d : Driver) (f : FrameInput) (a : App) : List Call :=
  [Call.SDL_GetTicks f.ticks] ++ pollCalls f.events ++
  keyboardCalls f.state (((f.ticks : ℚ) - a.lastFrame) / 1000) a.camera.Sprint ++
  renderCalls d a

/-! ## Concrete collaborators used to exercise the definitions -/

/-- A driver that accepts exactly one source text per stage, links whatever compiled stages it is
given as long as there is at least one, and puts `projection`, `view` and `model` at locations
0, 1 and 2. -/
def exampleDriver : Driver :=
  { compiles := fun _ source => source == "#version 330 core\nvoid main();\n"
    infoLog := fun _ _ => "0:1: syntax error"
    links := fun stages => !stages.isEmpty
    uniformLocation := fun _ name =>
      if name == "projection" then 0 else if name == "view" then 1
      else if name == "model" then 2 else -1 }

/-- Three files: a good vertex source, a good fragment source without a final newline, and a
vertex source that does not compile. Every other name cannot be opened. -/
def exampleFiles : FileSystem := fun filename =>
  if filename == "model.vs" then some "#version 330 core\nvoid main();\n"
  else if filename == "model.fs" then some "#version 330 core\nvoid main();"
  else if filename == "broken.vs" then some "#version 330 core\nvoid main()\n"
  else none

/-- No key held. -/
def noKeys : KeyboardState :=
  { SDL_SCANCODE_W := false, SDL_SCANCODE_S := false, SDL_SCANCODE_D := false,
    SDL_SCANCODE_A := false, SDL_SCANCODE_LSHIFT := false }

/-- The forward key and the sprint key held together. -/
def forwardSprintKeys : KeyboardState :=
  { SDL_SCANCODE_W := true, SDL_SCANCODE_S := false, SDL_SCANCODE_D := false,
    SDL_SCANCODE_A := false, SDL_SCANCODE_LSHIFT := true }

/-- A pass entered five seconds after the tick counter started, with the forward key held and
nothing else happening. -/
def firstFrame : FrameInput :=
  { ticks := 5000, events := [],
    state := { noKeys with SDL_SCANCODE_W := true },
    faults := fun _ => [], drawActivates := none }

/-- A pass whose pending events are a scroll and then a quit. -/
def quitFrame : FrameInput :=
  { ticks := 5016, events := [SDL_Event.SDL_MOUSEWHEEL (-5), SDL_Event.SDL_QUIT],
    state := noKeys, faults := fun _ => [], drawActivates := none }

/-- A pass in which the forward key and the sprint key are held. -/
def sprintFrame : FrameInput :=
  { ticks := 5032, events := [], state := forwardSprintKeys,
    faults := fun _ => [], drawActivates := none }

/-- A pass with no input in which `glClear` at line 228 raises `GL_INVALID_VALUE`. -/
def faultyFrame : FrameInput :=
  { ticks := 5016, events := [], state := noKeys,
    faults := fun line => if line = 228 then [GL_INVALID_VALUE] else [],
    drawActivates := none }

/-- The state at loop entry when both sources of the model shader compile and link. -/
def exampleApp : App :=
  App.initial (Shader.new exampleDriver exampleFiles "model.vs" "model.fs" World.fresh).1
    (Shader.new exampleDriver exampleFiles "model.vs" "model.fs" World.fresh).2

/-- The state at loop entry when neither source file of the model shader can be opened: both
stages are compiled from the empty string, fail, and the program is left unlinked. -/
def unlinkedApp : App :=
  App.initial (Shader.new exampleDriver exampleFiles "missing.vs" "missing.fs" World.fresh).1
    (Shader.new exampleDriver exampleFiles "missing.vs" "missing.fs" World.fresh).2

/-! ## Facts about the context tables -/

theorem any_shader_fresh {l : List ShaderObject} {n : GLuint} (h : ∀ so ∈ l, so.name ≠ n) :
    l.any (fun so => so.name == n) = false := by
  induction l with
  | nil => rfl
  | cons x xs ih =>
    have hx := h x (List.mem_cons_self _ _)
    have hxs : ∀ so ∈ xs, so.name ≠ n := fun so hso => h so (List.mem_cons_of_mem _ hso)
    simp [List.any_cons, ih hxs, hx]

theorem any_shader_and_fresh {l : List ShaderObject} {n : GLuint} (q : ShaderObject → Bool)
    (h : ∀ so ∈ l, so.name ≠ n) :
    l.any (fun so => so.name == n && q so) = false := by
  induction l with
  | nil => rfl
  | cons x xs ih =>
    have hx := h x (List.mem_cons_self _ _)
    have hxs : ∀ so ∈ xs, so.name ≠ n := fun so hso => h so (List.mem_cons_of_mem _ hso)
    simp [List.any_cons, ih hxs, hx]

theorem find_shader_fresh {l : List ShaderObject} {n : GLuint} (h : ∀ so ∈ l, so.name ≠ n) :
    l.find? (fun so => so.name == n) = none := by
  induction l with
  | nil => rfl
  | cons x xs ih =>
    have hx := h x (List.mem_cons_self _ _)
    have hxs : ∀ so ∈ xs, so.name ≠ n := fun so hso => h so (List.mem_cons_of_mem _ hso)
    simp [List.find?_cons, ih hxs, hx]

theorem map_shader_fresh {l : List ShaderObject} {n : GLuint} (g : ShaderObject → ShaderObject)
    (h : ∀ so ∈ l, so.name ≠ n) :
    l.map (fun so => if so.name = n then g so else so) = l := by
  induction l with
  | nil => rfl
  | cons x xs ih =>
    have hx := h x (List.mem_cons_self _ _)
    have hxs : ∀ so ∈ xs, so.name ≠ n := fun so hso => h so (List.mem_cons_of_mem _ hso)
    simp [ih hxs, hx]

theorem filter_shader_fresh {l : List ShaderObject} {n : GLuint} (h : ∀ so ∈ l, so.name ≠ n) :
    l.filter (fun so => so.name != n) = l := by
  induction l with
  | nil => rfl
  | cons x xs ih =>
    have hx := h x (List.mem_cons_self _ _)
    have hxs : ∀ so ∈ xs, so.name ≠ n := fun so hso => h so (List.mem_cons_of_mem _ hso)
    simp [List.filter_cons, ih hxs, hx]

theorem any_attached_fresh {l : List ProgramObject} {n : GLuint}
    (h : ∀ po ∈ l, ∀ s ∈ po.attached, s ≠ n) :
    ¬ ∃ po ∈ l, n ∈ po.attached := by
  rintro ⟨po, hpo, hm⟩
  exact h po hpo n hm rfl

theorem CompileShader_eq (d : Driver) (t : StageType) (src : String) (w : World)
    (hpos : 0 < w.nextName)
    (hs : ∀ so ∈ w.shaders, so.name ≠ w.nextName)
    (hp : ∀ po ∈ w.programs, ∀ s ∈ po.attached, s ≠ w.nextName) :
    CompileShader d t src w =
      if d.compiles t src then
        (w.nextName,
          { w with nextName := w.nextName + 1
                   shaders := w.shaders ++ [{ name := w.nextName, type := t, source := src,
                                              compileStatus := true, deleteStatus := false }]
                   calls := w.calls ++ [Call.glCreateShader t w.nextName,
                     Call.glShaderSource w.nextName src, Call.glCompileShader w.nextName,
                     Call.glGetShaderiv w.nextName] })
      else
        (0,
          { w with nextName := w.nextName + 1
                   stdout := w.stdout ++ [compileErrorMessage t (d.infoLog t src)]
                   calls := w.calls ++ [Call.glCreateShader t w.nextName,
                     Call.glShaderSource w.nextName src, Call.glCompileShader w.nextName,
                     Call.glGetShaderiv w.nextName, Call.glGetShaderiv w.nextName,
                     Call.glGetShaderInfoLog w.nextName, Call.glDeleteShader w.nextName] }) := by
  have hne : w.nextName ≠ 0 := Nat.pos_iff_ne_zero.mp hpos
  by_cases hc : d.compiles t src <;> cases t <;>
    simp [CompileShader, glCreateShader, glShaderSource, glCompileShader,
      glGetShaderiv_COMPILE_STATUS, glGetShaderiv_INFO_LOG_LENGTH, glGetShaderInfoLog,
      glDeleteShader, World.call, World.raise, World.print, World.isShader, World.isAttached,
      any_shader_fresh hs, find_shader_fresh hs, map_shader_fresh _ hs, filter_shader_fresh hs,
      any_attached_fresh hp, List.find?_append, List.filter_append, hc, hne]


theorem any_program_fresh {l : List ProgramObject} {n : GLuint} (h : ∀ po ∈ l, po.name ≠ n) :
    l.any (fun po => po.name == n) = false := by
  induction l with
  | nil => rfl
  | cons x xs ih =>
    have hx := h x (List.mem_cons_self _ _)
    have hxs : ∀ po ∈ xs, po.name ≠ n := fun po hpo => h po (List.mem_cons_of_mem _ hpo)
    simp [List.any_cons, ih hxs, hx]

theorem any_program_and_fresh {l : List ProgramObject} {n : GLuint} (q : ProgramObject → Bool)
    (h : ∀ po ∈ l, po.name ≠ n) :
    l.any (fun po => po.name == n && q po) = false := by
  induction l with
  | nil => rfl
  | cons x xs ih =>
    have hx := h x (List.mem_cons_self _ _)
    have hxs : ∀ po ∈ xs, po.name ≠ n := fun po hpo => h po (List.mem_cons_of_mem _ hpo)
    simp [List.any_cons, ih hxs, hx]

theorem map_program_fresh {l : List ProgramObject} {n : GLuint} (g : ProgramObject → ProgramObject)
    (h : ∀ po ∈ l, po.name ≠ n) :
    l.map (fun po => if po.name = n then g po else po) = l := by
  induction l with
  | nil => rfl
  | cons x xs ih =>
    have hx := h x (List.mem_cons_self _ _)
    have hxs : ∀ po ∈ xs, po.name ≠ n := fun po hpo => h po (List.mem_cons_of_mem _ hpo)
    simp [ih hxs, hx]

theorem any_contains_fresh {l : List ProgramObject} {n : GLuint}
    (h : ∀ po ∈ l, ∀ s ∈ po.attached, s ≠ n) :
    l.any (fun po => po.attached.contains n) = false := by
  induction l with
  | nil => rfl
  | cons x xs ih =>
    have hx : n ∉ x.attached := fun hm => h x (List.mem_cons_self _ _) n hm rfl
    have hxs : ∀ po ∈ xs, ∀ s ∈ po.attached, s ≠ n :=
      fun po hpo => h po (List.mem_cons_of_mem _ hpo)
    rw [List.any_cons, ih hxs]
    simp [hx]

theorem Shader_new_spec (d : Driver) (fs : FileSystem) (v f : String) (w : World) (hWF : w.WF) :
    (Shader.new d fs v f w).1.ID = w.nextName ∧
    (Shader.new d fs v f w).2.shaders = w.shaders ∧
    (Shader.new d fs v f w).2.programs = w.programs ++
      [{ name := w.nextName, attached := [],
         linkStatus := d.links (compiledStages d (LoadShaderAsString fs v)
           (LoadShaderAsString fs f)) }] ∧
    (Shader.new d fs v f w).2.stdout = w.stdout ++
      stageOutput d StageType.GL_VERTEX_SHADER (LoadShaderAsString fs v) ++
      stageOutput d StageType.GL_FRAGMENT_SHADER (LoadShaderAsString fs f) ∧
    (Shader.new d fs v f w).2.calls = w.calls ++ [Call.glCreateProgram w.nextName] ++
      stageCalls d StageType.GL_VERTEX_SHADER (LoadShaderAsString fs v) (w.nextName + 1) ++
      stageCalls d StageType.GL_FRAGMENT_SHADER (LoadShaderAsString fs f) (w.nextName + 1 + 1) ++
      [Call.glAttachShader w.nextName
         (stageHandle d StageType.GL_VERTEX_SHADER (LoadShaderAsString fs v) (w.nextName + 1)),
       Call.glAttachShader w.nextName
         (stageHandle d StageType.GL_FRAGMENT_SHADER (LoadShaderAsString fs f)
           (w.nextName + 1 + 1)),
       Call.glLinkProgram w.nextName, Call.glValidateProgram w.nextName,
       Call.glDetachShader w.nextName
         (stageHandle d StageType.GL_VERTEX_SHADER (LoadShaderAsString fs v) (w.nextName + 1)),
       Call.glDetachShader w.nextName
         (stageHandle d StageType.GL_FRAGMENT_SHADER (LoadShaderAsString fs f)
           (w.nextName + 1 + 1)),
       Call.glDeleteShader
         (stageHandle d StageType.GL_VERTEX_SHADER (LoadShaderAsString fs v) (w.nextName + 1)),
       Call.glDeleteShader
         (stageHandle d StageType.GL_FRAGMENT_SHADER (LoadShaderAsString fs f)
           (w.nextName + 1 + 1))] ∧
    (Shader.new d fs v f w).2.nextName = w.nextName + 1 + 1 + 1 ∧
    (Shader.new d fs v f w).2.current = w.current := by
  obtain ⟨hpos, hsh, hpr⟩ := hWF
  unfold Shader.new
  generalize LoadShaderAsString fs v = vsrc
  generalize LoadShaderAsString fs f = fsrc
  have hz : ∀ so ∈ w.shaders, so.name ≠ 0 := fun so h => Nat.pos_iff_ne_zero.mp (hsh so h).1
  have hs1 : ∀ so ∈ w.shaders, so.name ≠ w.nextName + 1 :=
    fun so h => Nat.ne_of_lt (Nat.lt_succ_of_lt (hsh so h).2)
  have hs2 : ∀ so ∈ w.shaders, so.name ≠ w.nextName + 1 + 1 :=
    fun so h => Nat.ne_of_lt (Nat.lt_succ_of_lt (Nat.lt_succ_of_lt (hsh so h).2))
  have hp0 : ∀ po ∈ w.programs, po.name ≠ w.nextName := fun po h => Nat.ne_of_lt (hpr po h).1
  have ha1 : ∀ po ∈ w.programs, ∀ s ∈ po.attached, s ≠ w.nextName + 1 :=
    fun po h s hs => Nat.ne_of_lt (Nat.lt_succ_of_lt ((hpr po h).2 s hs))
  have ha2 : ∀ po ∈ w.programs, ∀ s ∈ po.attached, s ≠ w.nextName + 1 + 1 :=
    fun po h s hs => Nat.ne_of_lt (Nat.lt_succ_of_lt (Nat.lt_succ_of_lt ((hpr po h).2 s hs)))
  have hne : w.nextName ≠ 0 := Nat.pos_iff_ne_zero.mp hpos
  have hmem : ∀ (P : ProgramObject → Prop), (∀ po ∈ w.programs, P po) →
      P { name := w.nextName, attached := [], linkStatus := false } →
      ∀ po ∈ w.programs ++ [{ name := w.nextName, attached := [], linkStatus := false }], P po := by
    intro P h1 h2 po hpo
    rcases List.mem_append.mp hpo with h | h
    · exact h1 po h
    · rw [List.mem_singleton.mp h]; exact h2
  have e1 := CompileShader_eq d StageType.GL_VERTEX_SHADER vsrc
    { w with nextName := w.nextName + 1
             programs := w.programs ++ [{ name := w.nextName, attached := [], linkStatus := false }]
             calls := w.calls ++ [Call.glCreateProgram w.nextName] }
    (Nat.succ_pos _) hs1 (hmem _ ha1 (by simp))
  simp only [Shader.new, glCreateProgram, e1]
  clear e1
  by_cases hv : d.compiles StageType.GL_VERTEX_SHADER vsrc
  · simp only [hv, if_true]
    have e2 := CompileShader_eq d StageType.GL_FRAGMENT_SHADER fsrc
      { w with nextName := w.nextName + 1 + 1
               shaders := w.shaders ++
                 [⟨w.nextName + 1, StageType.GL_VERTEX_SHADER, vsrc, true, false⟩]
               programs := w.programs ++
                 [{ name := w.nextName, attached := [], linkStatus := false }]
               calls := w.calls ++ [Call.glCreateProgram w.nextName] ++
                 [Call.glCreateShader StageType.GL_VERTEX_SHADER (w.nextName + 1),
                  Call.glShaderSource (w.nextName + 1) vsrc, Call.glCompileShader (w.nextName + 1),
                  Call.glGetShaderiv (w.nextName + 1)] }
      (Nat.succ_pos _)
      (by
        intro so hso
        rcases List.mem_append.mp hso with h | h
        · exact hs2 so h
        · rw [List.mem_singleton.mp h]; simp)
      (hmem _ ha2 (by simp))
    simp only [e2]
    clear e2
    by_cases hf : d.compiles StageType.GL_FRAGMENT_SHADER fsrc
    · simp only [hf, if_true]
      simp [glAttachShader, glLinkProgram, glValidateProgram, glDetachShader, glDeleteShader,
        World.call, World.raise, World.isShader, World.isProgram, World.isAttached,
        World.isAttachedTo, World.stagesOf, compiledStages, stageCalls, stageHandle, stageOutput,
        hv, hf, hne,
        any_shader_fresh hz, any_shader_fresh hs1, any_shader_fresh hs2, any_shader_and_fresh _ hs1,
        any_shader_and_fresh _ hs2, find_shader_fresh hs1, find_shader_fresh hs2,
        map_shader_fresh _ hs1, map_shader_fresh _ hs2, filter_shader_fresh hs1,
        filter_shader_fresh hs2, any_program_fresh hp0, any_program_and_fresh _ hp0,
        map_program_fresh _ hp0, any_contains_fresh ha1, any_contains_fresh ha2,
        any_attached_fresh ha1, any_attached_fresh ha2,
        List.find?_append, List.filter_append, List.any_append]
    · simp only [hf, Bool.false_eq_true, if_false]
      simp [glAttachShader, glLinkProgram, glValidateProgram, glDetachShader, glDeleteShader,
        World.call, World.raise, World.isShader, World.isProgram, World.isAttached,
        World.isAttachedTo, World.stagesOf, compiledStages, stageCalls, stageHandle, stageOutput,
        hv, hf, hne,
        any_shader_fresh hz, any_shader_fresh hs1, any_shader_fresh hs2, any_shader_and_fresh _ hs1,
        any_shader_and_fresh _ hs2, find_shader_fresh hs1, find_shader_fresh hs2,
        map_shader_fresh _ hs1, map_shader_fresh _ hs2, filter_shader_fresh hs1,
        filter_shader_fresh hs2, any_program_fresh hp0, any_program_and_fresh _ hp0,
        map_program_fresh _ hp0, any_contains_fresh ha1, any_contains_fresh ha2,
        any_attached_fresh ha1, any_attached_fresh ha2,
        List.find?_append, List.filter_append, List.any_append]
  · simp only [hv, Bool.false_eq_true, if_false]
    have e2 := CompileShader_eq d StageType.GL_FRAGMENT_SHADER fsrc
      { w with nextName := w.nextName + 1 + 1
               programs := w.programs ++
                 [{ name := w.nextName, attached := [], linkStatus := false }]
               stdout := w.stdout ++ [compileErrorMessage StageType.GL_VERTEX_SHADER
                 (d.infoLog StageType.GL_VERTEX_SHADER vsrc)]
               calls := w.calls ++ [Call.glCreateProgram w.nextName] ++
                 [Call.glCreateShader StageType.GL_VERTEX_SHADER (w.nextName + 1),
                  Call.glShaderSource (w.nextName + 1) vsrc, Call.glCompileShader (w.nextName + 1),
                  Call.glGetShaderiv (w.nextName + 1), Call.glGetShaderiv (w.nextName + 1),
                  Call.glGetShaderInfoLog (w.nextName + 1), Call.glDeleteShader (w.nextName + 1)] }
      (Nat.succ_pos _) hs2 (hmem _ ha2 (by simp))
    simp only [e2]
    clear e2
    by_cases hf : d.compiles StageType.GL_FRAGMENT_SHADER fsrc
    · simp only [hf, if_true]
      simp [glAttachShader, glLinkProgram, glValidateProgram, glDetachShader, glDeleteShader,
        World.call, World.raise, World.isShader, World.isProgram, World.isAttached,
        World.isAttachedTo, World.stagesOf, compiledStages, stageCalls, stageHandle, stageOutput,
        hv, hf, hne,
        any_shader_fresh hz, any_shader_fresh hs1, any_shader_fresh hs2, any_shader_and_fresh _ hs1,
        any_shader_and_fresh _ hs2, find_shader_fresh hs1, find_shader_fresh hs2,
        map_shader_fresh _ hs1, map_shader_fresh _ hs2, filter_shader_fresh hs1,
        filter_shader_fresh hs2, any_program_fresh hp0, any_program_and_fresh _ hp0,
        map_program_fresh _ hp0, any_contains_fresh ha1, any_contains_fresh ha2,
        any_attached_fresh ha1, any_attached_fresh ha2,
        List.find?_append, List.filter_append, List.any_append]
    · simp only [hf, Bool.false_eq_true, if_false]
      simp [glAttachShader, glLinkProgram, glValidateProgram, glDetachShader, glDeleteShader,
        World.call, World.raise, World.isShader, World.isProgram, World.isAttached,
        World.isAttachedTo, World.stagesOf, compiledStages, stageCalls, stageHandle, stageOutput,
        hv, hf, hne,
        any_shader_fresh hz, any_shader_fresh hs1, any_shader_fresh hs2, any_shader_and_fresh _ hs1,
        any_shader_and_fresh _ hs2, find_shader_fresh hs1, find_shader_fresh hs2,
        map_shader_fresh _ hs1, map_shader_fresh _ hs2, filter_shader_fresh hs1,
        filter_shader_fresh hs2, any_program_fresh hp0, any_program_and_fresh _ hp0,
        map_program_fresh _ hp0, any_contains_fresh ha1, any_contains_fresh ha2,
        any_attached_fresh ha1, any_attached_fresh ha2,
        List.find?_append, List.filter_append, List.any_append]


theorem World.fresh_WF : World.fresh.WF := by
  refine ⟨Nat.one_pos, ?_, ?_⟩
  · intro so hso; cases hso
  · intro po hpo; cases hpo

/-- The calls made by the constructor, after those made before it. -/
theorem Shader_new_calls_drop (d : Driver) (fs : FileSystem) (v f : String) (w : World)
    (hWF : w.WF) :
    (Shader.new d fs v f w).2.calls.drop w.calls.length = [Call.glCreateProgram w.nextName] ++
      stageCalls d StageType.GL_VERTEX_SHADER (LoadShaderAsString fs v) (w.nextName + 1) ++
      stageCalls d StageType.GL_FRAGMENT_SHADER (LoadShaderAsString fs f) (w.nextName + 1 + 1) ++
      [Call.glAttachShader w.nextName
         (stageHandle d StageType.GL_VERTEX_SHADER (LoadShaderAsString fs v) (w.nextName + 1)),
       Call.glAttachShader w.nextName
         (stageHandle d StageType.GL_FRAGMENT_SHADER (LoadShaderAsString fs f)
           (w.nextName + 1 + 1)),
       Call.glLinkProgram w.nextName, Call.glValidateProgram w.nextName,
       Call.glDetachShader w.nextName
         (stageHandle d StageType.GL_VERTEX_SHADER (LoadShaderAsString fs v) (w.nextName + 1)),
       Call.glDetachShader w.nextName
         (stageHandle d StageType.GL_FRAGMENT_SHADER (LoadShaderAsString fs f)
           (w.nextName + 1 + 1)),
       Call.glDeleteShader
         (stageHandle d StageType.GL_VERTEX_SHADER (LoadShaderAsString fs v) (w.nextName + 1)),
       Call.glDeleteShader
         (stageHandle d StageType.GL_FRAGMENT_SHADER (LoadShaderAsString fs f)
           (w.nextName + 1 + 1))] := by
  rw [(Shader_new_spec d fs v f w hWF).2.2.2.2.1]
  simp only [List.append_assoc]
  exact List.drop_left _ _

theorem isShader_fresh (w : World) (n : GLuint) (h : w.nextName ≤ n) (hWF : w.WF) :
    w.isShader n = false :=
  any_shader_fresh (fun so hso => Nat.ne_of_lt (Nat.lt_of_lt_of_le (hWF.2.1 so hso).2 h))

/-! ## Claims about the shader wrapper -/

/-- C3: on a well-formed context, whatever the two compilations and the link yield, no stage
object created by `glCreateShader` during the construction of a `Shader` is live when the
constructor returns. Both objects are created (names `nextName + 1` and `nextName + 2`), and
the table of shader objects is afterwards exactly what it was before. -/
theorem C3_created_stage_objects_are_deleted (d : Driver) (fs : FileSystem) (v f : String)
    (w : World) (hWF : w.WF) :
    (∀ t n, Call.glCreateShader t n ∈ (Shader.new d fs v f w).2.calls.drop w.calls.length →
      (Shader.new d fs v f w).2.isShader n = false) ∧
    Call.glCreateShader StageType.GL_VERTEX_SHADER (w.nextName + 1) ∈
      (Shader.new d fs v f w).2.calls.drop w.calls.length ∧
    Call.glCreateShader StageType.GL_FRAGMENT_SHADER (w.nextName + 2) ∈
      (Shader.new d fs v f w).2.calls.drop w.calls.length ∧
    (Shader.new d fs v f w).2.shaders = w.shaders := by
  have hspec := Shader_new_spec d fs v f w hWF
  have hsh : ∀ n, w.nextName ≤ n → (Shader.new d fs v f w).2.isShader n = false := by
    intro n hn
    have := isShader_fresh w n hn hWF
    simpa [World.isShader, hspec.2.1] using this
  rw [Shader_new_calls_drop d fs v f w hWF]
  refine ⟨?_, ?_, ?_, hspec.2.1⟩
  · intro t n hmem
    apply hsh
    simp only [stageCalls, List.mem_append, List.mem_cons, List.mem_singleton] at hmem
    rcases hmem with ((h | h) | h) | h
    · simp at h
    · rcases h with h | h
      · simp at h
        rw [h.2]
        exact Nat.le_add_right _ _
      · split at h <;> simp at h
    · rcases h with h | h
      · simp at h
        rw [h.2]
        exact Nat.le_trans (Nat.le_add_right _ 1) (Nat.le_add_right _ 1)
      · split at h <;> simp at h
    · simp at h
  · simp [stageCalls]
  · simp [stageCalls]

theorem C3_created_stage_objects_are_deleted_witness :
    World.fresh.WF ∧
    (Shader.new exampleDriver exampleFiles "broken.vs" "model.fs" World.fresh).2.shaders = [] :=
  ⟨World.fresh_WF,
   (C3_created_stage_objects_are_deleted exampleDriver exampleFiles "broken.vs" "model.fs"
      World.fresh World.fresh_WF).2.2.2⟩

/-- C1, as stated, fails: the vertex source of `broken.vs` does not compile, the failure is
printed, and the constructed object's ID is nevertheless a live program object whose link
succeeded (on the fragment stage alone). -/
theorem C1_counterexample :
    exampleDriver.compiles StageType.GL_VERTEX_SHADER
        (LoadShaderAsString exampleFiles "broken.vs") = false ∧
    (Shader.new exampleDriver exampleFiles "broken.vs" "model.fs" World.fresh).2.isProgram
        (Shader.new exampleDriver exampleFiles "broken.vs" "model.fs" World.fresh).1.ID = true ∧
    (Shader.new exampleDriver exampleFiles "broken.vs" "model.fs" World.fresh).2.isLinked
        (Shader.new exampleDriver exampleFiles "broken.vs" "model.fs" World.fresh).1.ID = true := by
  decide

/-- C1 (amended): on a well-formed context, when at least one stage fails to compile, the
constructor prints for each failing stage the line naming it (`GL_VERTEX_SHADER` or
`GL_FRAGMENT_SHADER`) followed by the driver's log, and passes 0 in place of that stage's handle
to `glAttachShader`. The constructed object's ID is still the live program made by
`glCreateProgram`, and whether it is linked is what the driver answers for the stages that did
compile. -/
theorem C1_failure_reported_program_still_exposed (d : Driver) (fs : FileSystem)
    (v f : String) (w : World) (hWF : w.WF)
    (hfail : d.compiles StageType.GL_VERTEX_SHADER (LoadShaderAsString fs v) = false ∨
             d.compiles StageType.GL_FRAGMENT_SHADER (LoadShaderAsString fs f) = false) :
    (d.compiles StageType.GL_VERTEX_SHADER (LoadShaderAsString fs v) = false →
      ("ERROR: GL_VERTEX_SHADER compilation failed!\n" ++
          d.infoLog StageType.GL_VERTEX_SHADER (LoadShaderAsString fs v) ++ "\n") ∈
        (Shader.new d fs v f w).2.stdout.drop w.stdout.length ∧
      Call.glAttachShader w.nextName 0 ∈ (Shader.new d fs v f w).2.calls.drop w.calls.length) ∧
    (d.compiles StageType.GL_FRAGMENT_SHADER (LoadShaderAsString fs f) = false →
      ("ERROR: GL_FRAGMENT_SHADER compilation failed!\n" ++
          d.infoLog StageType.GL_FRAGMENT_SHADER (LoadShaderAsString fs f) ++ "\n") ∈
        (Shader.new d fs v f w).2.stdout.drop w.stdout.length ∧
      Call.glAttachShader w.nextName 0 ∈ (Shader.new d fs v f w).2.calls.drop w.calls.length) ∧
    (Shader.new d fs v f w).2.stdout.drop w.stdout.length ≠ [] ∧
    (Shader.new d fs v f w).2.isProgram (Shader.new d fs v f w).1.ID = true ∧
    (Shader.new d fs v f w).2.isLinked (Shader.new d fs v f w).1.ID =
      d.links (compiledStages d (LoadShaderAsString fs v) (LoadShaderAsString fs f)) := by
  have hspec := Shader_new_spec d fs v f w hWF
  have hp0 : ∀ po ∈ w.programs, po.name ≠ w.nextName :=
    fun po h => Nat.ne_of_lt (hWF.2.2 po h).1
  have hout : (Shader.new d fs v f w).2.stdout.drop w.stdout.length =
      stageOutput d StageType.GL_VERTEX_SHADER (LoadShaderAsString fs v) ++
      stageOutput d StageType.GL_FRAGMENT_SHADER (LoadShaderAsString fs f) := by
    rw [hspec.2.2.2.1, List.append_assoc]
    exact List.drop_left _ _
  rw [Shader_new_calls_drop d fs v f w hWF, hout, hspec.1]
  refine ⟨?_, ?_, ?_, ?_, ?_⟩
  · intro hv
    simp [stageOutput, stageHandle, compileErrorMessage, hv]
  · intro hf
    simp [stageOutput, stageHandle, compileErrorMessage, hf]
  · rcases hfail with h | h <;> simp [stageOutput, h]
  · simp [World.isProgram, hspec.2.2.1]
  · simp [World.isLinked, hspec.2.2.1, List.any_append, any_program_and_fresh _ hp0]

theorem C1_failure_reported_program_still_exposed_witness :
    World.fresh.WF ∧
    (exampleDriver.compiles StageType.GL_VERTEX_SHADER
        (LoadShaderAsString exampleFiles "broken.vs") = false ∨
     exampleDriver.compiles StageType.GL_FRAGMENT_SHADER
        (LoadShaderAsString exampleFiles "model.fs") = false) ∧
    (Shader.new exampleDriver exampleFiles "broken.vs" "model.fs" World.fresh).2.isProgram
        (Shader.new exampleDriver exampleFiles "broken.vs" "model.fs" World.fresh).1.ID = true :=
  ⟨World.fresh_WF, Or.inl (by decide),
   (C1_failure_reported_program_still_exposed exampleDriver exampleFiles "broken.vs" "model.fs"
      World.fresh World.fresh_WF (Or.inl (by decide))).2.2.2.1⟩

/-- C8: a file that cannot be opened is loaded as the empty string, without any error, and the
constructor goes on to hand that empty source to `glShaderSource` and `glCompileShader` for
the stage concerned (on a well-formed context the vertex stage object is `nextName + 1` and
the fragment stage object `nextName + 2`). -/
theorem C8_missing_file_is_empty_source (d : Driver) (fs : FileSystem) (v f : String)
    (w : World) (hWF : w.WF) :
    (∀ filename, fs filename = none → LoadShaderAsString fs filename = "") ∧
    (fs v = none →
      Call.glCreateShader StageType.GL_VERTEX_SHADER (w.nextName + 1) ∈
        (Shader.new d fs v f w).2.calls.drop w.calls.length ∧
      Call.glShaderSource (w.nextName + 1) "" ∈
        (Shader.new d fs v f w).2.calls.drop w.calls.length ∧
      Call.glCompileShader (w.nextName + 1) ∈
        (Shader.new d fs v f w).2.calls.drop w.calls.length) ∧
    (fs f = none →
      Call.glCreateShader StageType.GL_FRAGMENT_SHADER (w.nextName + 2) ∈
        (Shader.new d fs v f w).2.calls.drop w.calls.length ∧
      Call.glShaderSource (w.nextName + 2) "" ∈
        (Shader.new d fs v f w).2.calls.drop w.calls.length ∧
      Call.glCompileShader (w.nextName + 2) ∈
        (Shader.new d fs v f w).2.calls.drop w.calls.length) := by
  have hload : ∀ filename, fs filename = none → LoadShaderAsString fs filename = "" := by
    intro filename h
    simp [LoadShaderAsString, h]
  rw [Shader_new_calls_drop d fs v f w hWF]
  refine ⟨hload, ?_, ?_⟩
  · intro hv
    rw [hload v hv]
    simp [stageCalls]
  · intro hf
    rw [hload f hf]
    simp [stageCalls]

theorem C8_missing_file_is_empty_source_witness :
    World.fresh.WF ∧ exampleFiles "missing.fs" = none ∧
    LoadShaderAsString exampleFiles "missing.fs" = "" ∧
    Call.glShaderSource 3 "" ∈
      (Shader.new exampleDriver exampleFiles "model.vs" "missing.fs" World.fresh).2.calls :=
  ⟨World.fresh_WF, by decide,
   (C8_missing_file_is_empty_source exampleDriver exampleFiles "model.vs" "missing.fs"
      World.fresh World.fresh_WF).1 "missing.fs" (by decide),
   ((C8_missing_file_is_empty_source exampleDriver exampleFiles "model.vs" "missing.fs"
      World.fresh World.fresh_WF).2.2 (by decide)).2.1⟩

/-! ## Facts about `Input` and the loop body -/

theorem handleEvent_eq (e : SDL_Event) (a : App) :
    handleEvent e a =
      { a with gQuit := a.gQuit || decide (e = SDL_Event.SDL_QUIT)
               world := { a.world with
                 calls := a.world.calls ++ eventCalls e
                 stdout := a.world.stdout ++
                   (if e = SDL_Event.SDL_QUIT then ["Goodbye!\n"] else []) } } := by
  cases e <;>
    simp [handleEvent, eventCalls, World.print, App.call, World.call, Camera.ProcessMouseScroll,
      Camera.ProcessMouseMovement]
  split <;> simp

theorem pollEvents_eq (events : List SDL_Event) (a : App) :
    pollEvents events a =
      { a with gQuit := a.gQuit || events.contains SDL_Event.SDL_QUIT
               world := { a.world with
                 calls := a.world.calls ++ pollCalls events
                 stdout := a.world.stdout ++ pollOutput events } } := by
  induction events generalizing a with
  | nil => simp [pollEvents, pollCalls, pollOutput, App.call, World.call]
  | cons e pending ih =>
    rw [pollEvents, ih, handleEvent_eq]
    simp [pollCalls, pollOutput, App.call, World.call, List.contains_cons, Bool.or_assoc]
    rw [show decide (e = SDL_Event.SDL_QUIT) = decide (SDL_Event.SDL_QUIT = e) from
      decide_eq_decide.mpr eq_comm]

theorem Input_eq (f : FrameInput) (a : App) :
    Input f a =
      { a with gQuit := a.gQuit || f.events.contains SDL_Event.SDL_QUIT
               camera := { a.camera with Sprint := f.state.SDL_SCANCODE_LSHIFT }
               world := { a.world with
                 calls := a.world.calls ++ pollCalls f.events ++
                   keyboardCalls f.state a.deltaTime a.camera.Sprint
                 stdout := a.world.stdout ++ pollOutput f.events } } := by
  rw [Input, pollEvents_eq]
  cases hW : f.state.SDL_SCANCODE_W <;> cases hS : f.state.SDL_SCANCODE_S <;>
    cases hD : f.state.SDL_SCANCODE_D <;> cases hA : f.state.SDL_SCANCODE_A <;>
    cases hL : f.state.SDL_SCANCODE_LSHIFT <;>
    simp [keyboardCalls, Camera.ProcessKeyboard, Camera.setSprint, App.call, World.call, hW, hS,
      hD, hA, hL]

theorem Shader_use_eq (s : Shader) (w : World) :
    s.use w =
      { w with calls := w.calls ++ [Call.glUseProgram s.ID]
               errors := w.errors ++ useErrors w s.ID
               current := activeAfterUse w s.ID } := by
  by_cases h0 : s.ID = 0 <;>
  cases hP : w.programs.any (fun po => po.name == s.ID) <;>
  cases hL : w.programs.any (fun po => po.name == s.ID && po.linkStatus) <;>
  simp [Shader.use, glUseProgram, World.call, World.raise, World.isProgram, World.isLinked,
    useErrors, activeAfterUse, h0, hP, hL]

theorem Shader_setMat4_eq (d : Driver) (s : Shader) (name : String) (w : World) :
    s.setMat4 d name w =
      { w with calls := w.calls ++ [Call.glGetUniformLocation s.ID name,
                 Call.glUniformMatrix4fv (locationOf d w s.ID name)]
               errors := w.errors ++ setMat4Errors w w.current s.ID
               uniformWrites := w.uniformWrites ++ writeOf w.current (locationOf d w s.ID name) }
    := by
  cases hP : w.programs.any (fun po => po.name == s.ID) <;>
  cases hL : w.programs.any (fun po => po.name == s.ID && po.linkStatus) <;>
  by_cases h1 : d.uniformLocation s.ID name = -1 <;>
  by_cases hc : w.current = 0 <;>
  simp [Shader.setMat4, glGetUniformLocation, glUniformMatrix4fv, World.call, World.raise,
    World.isProgram, World.isLinked, setMat4Errors, locationOf, writeOf, hP, hL, h1, hc]

theorem loopBody_eq (d : Driver) (f : FrameInput) (a : App) :
    loopBody d f a =
      { a with
        deltaTime := ((f.ticks : ℚ) - a.lastFrame) / 1000
        lastFrame := (f.ticks : ℚ)
        gQuit := a.gQuit || f.events.contains SDL_Event.SDL_QUIT
        camera := { a.camera with Sprint := f.state.SDL_SCANCODE_LSHIFT }
        world := { a.world with
          calls := a.world.calls ++ frameCalls d f a
          stdout := a.world.stdout ++ pollOutput f.events
          errors := a.world.errors ++ frameErrors f a
          current := (match f.drawActivates with
            | some p => p
            | none => activeAfterUse a.world a.ourShader.ID)
          uniformWrites := a.world.uniformWrites ++
            writeOf (activeAfterUse a.world a.ourShader.ID)
              (locationOf d a.world a.ourShader.ID "projection") ++
            writeOf (activeAfterUse a.world a.ourShader.ID)
              (locationOf d a.world a.ourShader.ID "view") ++
            writeOf (activeAfterUse a.world a.ourShader.ID)
              (locationOf d a.world a.ourShader.ID "model") } } := by
  simp only [loopBody, Input_eq, Shader_use_eq, Shader_setMat4_eq, App.call, App.fault,
    World.call, Model.Draw]
  cases hD : f.drawActivates <;>
    simp [frameCalls, frameErrors, renderCalls, useErrors, setMat4Errors, locationOf,
      activeAfterUse, World.isProgram, World.isLinked]

theorem loopBody_calls_drop (d : Driver) (f : FrameInput) (a : App) :
    (loopBody d f a).world.calls.drop a.world.calls.length = frameCalls d f a := by
  rw [loopBody_eq]
  exact List.drop_left _ _

theorem pollCalls_not_render (events : List SDL_Event) :
    ∀ c ∈ pollCalls events, c.isRender = false := by
  induction events with
  | nil => simp [pollCalls, Call.isRender]
  | cons e pending ih =>
    intro c hc
    simp only [pollCalls, List.mem_cons, List.mem_append] at hc
    rcases hc with h | h | h
    · rw [h]; rfl
    · cases e <;> simp [eventCalls] at h
      · rw [h]; rfl
      · rcases h.2 with h | h <;> (rw [h]; rfl)
      · rw [h]; rfl
    · exact ih c h

theorem keyboardCalls_not_render (state : KeyboardState) (dt : ℚ) (sprint : Bool) :
    ∀ c ∈ keyboardCalls state dt sprint, c.isRender = false := by
  intro c hc
  simp only [keyboardCalls, List.mem_append, List.mem_singleton] at hc
  rcases hc with ((((h | h) | h) | h) | h) | h
  · rw [h]; rfl
  all_goals first
    | (rw [h]; rfl)
    | (split at h <;> simp at h; rw [h]; rfl)

theorem pollCalls_polls (events : List SDL_Event) :
    (∀ e ∈ events, Call.SDL_PollEvent (some e) ∈ pollCalls events ∧
      ∀ c ∈ eventCalls e, c ∈ pollCalls events) ∧
    Call.SDL_PollEvent none ∈ pollCalls events := by
  induction events with
  | nil => simp [pollCalls]
  | cons e pending ih =>
    refine ⟨?_, ?_⟩
    · intro x hx
      rcases List.mem_cons.mp hx with h | h
      · subst h
        exact ⟨by simp [pollCalls], fun c hc => by simp [pollCalls, hc]⟩
      · have := ih.1 x h
        exact ⟨by simp [pollCalls, this.1], fun c hc => by simp [pollCalls, this.2 c hc]⟩
    · simp [pollCalls, ih.2]

theorem pollCalls_no_keyboard (events : List SDL_Event) (direction : Camera_Movement) (dt : ℚ)
    (sprint : Bool) : Call.Camera_ProcessKeyboard direction dt sprint ∉ pollCalls events := by
  induction events with
  | nil => simp [pollCalls]
  | cons e pending ih =>
    intro hc
    simp only [pollCalls, List.mem_cons, List.mem_append] at hc
    rcases hc with h | h | h
    · cases h
    · cases e <;> simp [eventCalls] at h
    · exact ih h

/-- Every `ProcessKeyboard` call of a pass gets the delta computed at the top of that pass and
finds the sprint flag as the pass before left it. -/
theorem frameCalls_keyboard (d : Driver) (f : FrameInput) (a : App)
    (direction : Camera_Movement) (dt : ℚ) (sprint : Bool)
    (h : Call.Camera_ProcessKeyboard direction dt sprint ∈ frameCalls d f a) :
    dt = ((f.ticks : ℚ) - a.lastFrame) / 1000 ∧ sprint = a.camera.Sprint := by
  simp only [frameCalls, List.mem_append] at h
  rcases h with ((h | h) | h) | h
  · simp at h
  · exact absurd h (pollCalls_no_keyboard _ _ _ _)
  · simp only [keyboardCalls, List.mem_append, List.mem_singleton] at h
    rcases h with ((((h | h) | h) | h) | h) | h
    · cases h
    · split at h <;> simp at h
      exact ⟨h.2.1, h.2.2⟩
    · split at h <;> simp at h
      exact ⟨h.2.1, h.2.2⟩
    · split at h <;> simp at h
      exact ⟨h.2.1, h.2.2⟩
    · split at h <;> simp at h
      exact ⟨h.2.1, h.2.2⟩
    · cases h
  · simp [renderCalls] at h

theorem writeOf_target (w : World) (d : Driver) (ID : GLuint) (name : String)
    (wr : GLuint × GLint)
    (h : wr ∈ writeOf (activeAfterUse w ID) (locationOf d w ID name)) : wr.1 = ID := by
  unfold writeOf at h
  split at h
  · cases h
  · rename_i hact
    split at h
    · cases h
    · rename_i hloc
      have hP : w.isProgram ID = true := by
        by_contra hc
        simp [locationOf, hc] at hloc
      have hL : w.isLinked ID = true := by
        by_contra hc
        simp [locationOf, hc] at hloc
      have h0 : ID ≠ 0 := by
        intro hc
        simp [activeAfterUse, hc] at hact
      rw [List.mem_singleton.mp h]
      simp [activeAfterUse, h0, hP, hL]

theorem mem_frameErrors (f : FrameInput) (a : App) (line : Nat)
    (hline : line ∈ [225, 227, 228, 230, 234, 235, 241, 242]) (e : GLenum)
    (he : e ∈ f.faults line) : e ∈ frameErrors f a := by
  simp only [List.mem_cons, List.mem_singleton, List.not_mem_nil, or_false] at hline
  simp only [frameErrors, List.mem_append]
  rcases hline with h | h | h | h | h | h | h | h <;> subst h <;> simp [he]

theorem pollOutput_goodbye (events : List SDL_Event) :
    ∀ s ∈ pollOutput events, s = "Goodbye!\n" := by
  induction events with
  | nil => simp [pollOutput]
  | cons e pending ih =>
    intro s hs
    simp only [pollOutput, List.mem_append] at hs
    rcases hs with h | h
    · split at h <;> simp at h
      exact h
    · exact ih s h

theorem writeOf_active (active : GLuint) (location : GLint) (wr : GLuint × GLint)
    (h : wr ∈ writeOf active location) : wr.1 = active := by
  unfold writeOf at h
  split at h
  · cases h
  · split at h
    · cases h
    · rw [List.mem_singleton.mp h]

theorem pollCalls_no_use (events : List SDL_Event) (p : GLuint) :
    Call.glUseProgram p ∉ pollCalls events := by
  induction events with
  | nil => simp [pollCalls]
  | cons e pending ih =>
    intro hc
    simp only [pollCalls, List.mem_cons, List.mem_append] at hc
    rcases hc with h | h | h
    · cases h
    · cases e <;> simp [eventCalls] at h
    · exact ih h

theorem keyboardCalls_no_use (state : KeyboardState) (dt : ℚ) (sprint : Bool) (p : GLuint) :
    Call.glUseProgram p ∉ keyboardCalls state dt sprint := by
  intro h
  simp only [keyboardCalls, List.mem_append, List.mem_singleton] at h
  rcases h with ((((h | h) | h) | h) | h) | h
  · cases h
  · split at h <;> simp at h
  · split at h <;> simp at h
  · split at h <;> simp at h
  · split at h <;> simp at h
  · cases h

/-! ## Claims about the render loop -/

/-- C2, as stated, fails: in a pass whose pending events contain a quit event the flag is set,
and the clear, the model draw and the buffer swap of that same pass are still issued. -/
theorem C2_counterexample :
    SDL_Event.SDL_QUIT ∈ quitFrame.events ∧
    (loopBody exampleDriver quitFrame exampleApp).gQuit = true ∧
    Call.glClear ∈
      (loopBody exampleDriver quitFrame exampleApp).world.calls.drop
        exampleApp.world.calls.length ∧
    Call.Model_Draw exampleApp.ourShader.ID ∈
      (loopBody exampleDriver quitFrame exampleApp).world.calls.drop
        exampleApp.world.calls.length ∧
    Call.SDL_GL_SwapWindow ∈
      (loopBody exampleDriver quitFrame exampleApp).world.calls.drop
        exampleApp.world.calls.length := by
  decide

/-- C2 (amended): a pass in which `Input` observes a quit event ends with `gQuit` set, and
the loop runs no further pass after it; the rendering commands of that same pass (clear, the
three uniform writes, model draw, buffer swap) are still issued, as the last calls of the pass,
because the flag is tested only at the top of the loop. -/
theorem C2_quit_stops_next_pass_not_rendering (d : Driver) (f : FrameInput) (a : App)
    (hq : SDL_Event.SDL_QUIT ∈ f.events) :
    (loopBody d f a).gQuit = true ∧
    (∀ later, renderLoop d later (loopBody d f a) = loopBody d f a) ∧
    ∃ before,
      (loopBody d f a).world.calls.drop a.world.calls.length = before ++
        [Call.glClear,
         Call.glUseProgram a.ourShader.ID,
         Call.glGetUniformLocation a.ourShader.ID "projection",
         Call.glUniformMatrix4fv (locationOf d a.world a.ourShader.ID "projection"),
         Call.glGetUniformLocation a.ourShader.ID "view",
         Call.glUniformMatrix4fv (locationOf d a.world a.ourShader.ID "view"),
         Call.glGetUniformLocation a.ourShader.ID "model",
         Call.glUniformMatrix4fv (locationOf d a.world a.ourShader.ID "model"),
         Call.Model_Draw a.ourShader.ID, Call.SDL_GL_SwapWindow] := by
  have hg : (loopBody d f a).gQuit = true := by
    rw [loopBody_eq]
    simp [hq]
  refine ⟨hg, ?_, ?_⟩
  · intro later
    cases later with
    | nil => rfl
    | cons g rest => simp [renderLoop, hg]
  · rw [loopBody_calls_drop]
    refine ⟨[Call.SDL_GetTicks f.ticks] ++ pollCalls f.events ++
      keyboardCalls f.state (((f.ticks : ℚ) - a.lastFrame) / 1000) a.camera.Sprint ++
      [Call.glViewport a.gScreenWidth a.gScreenHeight, Call.glClearColor], ?_⟩
    simp [frameCalls, renderCalls]

theorem C2_quit_stops_next_pass_not_rendering_witness :
    SDL_Event.SDL_QUIT ∈ quitFrame.events ∧
    (loopBody exampleDriver quitFrame exampleApp).gQuit = true ∧
    renderLoop exampleDriver [firstFrame] (loopBody exampleDriver quitFrame exampleApp) =
      loopBody exampleDriver quitFrame exampleApp :=
  ⟨by decide,
   (C2_quit_stops_next_pass_not_rendering exampleDriver quitFrame exampleApp (by decide)).1,
   (C2_quit_stops_next_pass_not_rendering exampleDriver quitFrame exampleApp (by decide)).2.1
     [firstFrame]⟩

/-- C4: in every pass of the loop the calls are, in this order: the tick read, then the input
part, then the rendering part. The input part polls every pending event and the empty queue
after them, makes the camera call of each event, and contains no rendering command. The
rendering part is viewport, clear colour, clear, program activation, the uniform writes for
`projection`, `view` and `model` in that order, the model draw and the buffer swap. -/
theorem C4_input_before_rendering_fixed_order (d : Driver) (f : FrameInput) (a : App) :
    ∃ input,
      (loopBody d f a).world.calls.drop a.world.calls.length =
        Call.SDL_GetTicks f.ticks :: input ++
        [Call.glViewport a.gScreenWidth a.gScreenHeight, Call.glClearColor, Call.glClear,
         Call.glUseProgram a.ourShader.ID,
         Call.glGetUniformLocation a.ourShader.ID "projection",
         Call.glUniformMatrix4fv (locationOf d a.world a.ourShader.ID "projection"),
         Call.glGetUniformLocation a.ourShader.ID "view",
         Call.glUniformMatrix4fv (locationOf d a.world a.ourShader.ID "view"),
         Call.glGetUniformLocation a.ourShader.ID "model",
         Call.glUniformMatrix4fv (locationOf d a.world a.ourShader.ID "model"),
         Call.Model_Draw a.ourShader.ID, Call.SDL_GL_SwapWindow] ∧
      (∀ c ∈ input, c.isRender = false) ∧
      (∀ e ∈ f.events, Call.SDL_PollEvent (some e) ∈ input ∧ ∀ c ∈ eventCalls e, c ∈ input) ∧
      Call.SDL_PollEvent none ∈ input ∧
      Call.Camera_setSprint f.state.SDL_SCANCODE_LSHIFT ∈ input := by
  refine ⟨pollCalls f.events ++
    keyboardCalls f.state (((f.ticks : ℚ) - a.lastFrame) / 1000) a.camera.Sprint, ?_, ?_, ?_, ?_,
    ?_⟩
  · rw [loopBody_calls_drop]
    simp [frameCalls, renderCalls]
  · intro c hc
    rcases List.mem_append.mp hc with h | h
    · exact pollCalls_not_render _ c h
    · exact keyboardCalls_not_render _ _ _ c h
  · intro e he
    have := (pollCalls_polls f.events).1 e he
    exact ⟨List.mem_append_left _ this.1, fun c hc => List.mem_append_left _ (this.2 c hc)⟩
  · exact List.mem_append_left _ (pollCalls_polls f.events).2
  · simp [keyboardCalls]

/-- C5, as stated, fails: entering the loop when the tick counter reads 5000 makes the delta of
the first pass 5 seconds, which is the full time since the counter started, and that is the
value handed to `ProcessKeyboard`. -/
theorem C5_counterexample :
    (loopBody exampleDriver firstFrame exampleApp).deltaTime = 5 ∧
    (5 : ℚ) = (firstFrame.ticks : ℚ) / 1000 ∧
    Call.Camera_ProcessKeyboard Camera_Movement.FORWARD 5 false ∈
      (loopBody exampleDriver firstFrame exampleApp).world.calls := by
  rw [loopBody_eq]
  refine ⟨?_, ?_, ?_⟩
  · norm_num [firstFrame, exampleApp, App.initial]
  · norm_num [firstFrame]
  · simp only [frameCalls, keyboardCalls, firstFrame, exampleApp, App.initial, noKeys]
    norm_num

/-- C5 (amended): on the first pass of the loop the delta is the tick counter at loop entry
divided by 1000, that is the full time in seconds since the counter started; no clamp is applied.
That value is what every `ProcessKeyboard` call of the pass receives, and it is zero only when
the counter reads zero. -/
theorem C5_first_delta_is_full_elapsed_time (d : Driver) (f : FrameInput) (ourShader : Shader)
    (w : World) :
    (loopBody d f (App.initial ourShader w)).deltaTime = (f.ticks : ℚ) / 1000 ∧
    (∀ direction dt sprint, Call.Camera_ProcessKeyboard direction dt sprint ∈
        (loopBody d f (App.initial ourShader w)).world.calls.drop w.calls.length →
      dt = (f.ticks : ℚ) / 1000) ∧
    ((loopBody d f (App.initial ourShader w)).deltaTime = 0 ↔ f.ticks = 0) := by
  refine ⟨?_, ?_, ?_⟩
  · rw [loopBody_eq]
    simp [App.initial]
  · intro direction dt sprint h
    have hd : (loopBody d f (App.initial ourShader w)).world.calls.drop w.calls.length =
        frameCalls d f (App.initial ourShader w) :=
      loopBody_calls_drop d f (App.initial ourShader w)
    rw [hd] at h
    have := (frameCalls_keyboard d f _ direction dt sprint h).1
    simpa [App.initial] using this
  · rw [loopBody_eq]
    simp [App.initial]

/-- C6, as stated, fails: `glClear` raises `GL_INVALID_VALUE` in a pass, nothing at all is
printed during that pass, and the error flag is still pending when the pass ends. -/
theorem C6_counterexample :
    GL_INVALID_VALUE ∈ faultyFrame.faults 228 ∧
    (loopBody exampleDriver faultyFrame exampleApp).world.stdout = exampleApp.world.stdout ∧
    GL_INVALID_VALUE ∈ (loopBody exampleDriver faultyFrame exampleApp).world.errors := by
  decide

/-- C6 (amended): an OpenGL error raised by a command of a pass of the loop is not logged by
the loop: the only lines a pass prints are the `Goodbye!` of its quit events, since no command
of the loop is wrapped in `GLCheck`. The error stays pending (no flag pending before the pass
or raised in it is consumed), and the loop is not halted by it: unless quit was signalled, the
next pass runs. A command that is wrapped in `GLCheck` does get the first error it raises
printed with its text and line. -/
theorem C6_frame_errors_pending_not_logged (d : Driver) (f : FrameInput) (a : App) :
    (loopBody d f a).world.stdout = a.world.stdout ++ pollOutput f.events ∧
    (∀ s ∈ pollOutput f.events, s = "Goodbye!\n") ∧
    (∀ line ∈ [225, 227, 228, 230, 234, 235, 241, 242], ∀ e ∈ f.faults line,
      e ∈ (loopBody d f a).world.errors) ∧
    List.IsPrefix a.world.errors (loopBody d f a).world.errors ∧
    ((loopBody d f a).gQuit = false → ∀ g later,
      renderLoop d (g :: later) (loopBody d f a) =
        renderLoop d later (loopBody d g (loopBody d f a))) ∧
    (∀ (x : World → World) (text : String) (line : Nat) (w : World) (e : GLenum)
       (pending : List GLenum),
      (x (GLClearAllErrors w)).errors = e :: pending → e ≠ GL_NO_ERROR →
      (GLCheck x text line w).stdout =
        (x (GLClearAllErrors w)).stdout ++
          ["OpenGL Error:" ++ toString e ++ "\tLine: " ++ toString line ++
            "\tfunction: " ++ text ++ "\n"]) := by
  refine ⟨?_, ?_, ?_, ?_, ?_, ?_⟩
  · rw [loopBody_eq]
  · exact pollOutput_goodbye f.events
  · intro line hline e he
    rw [loopBody_eq]
    exact List.mem_append_right _ (mem_frameErrors f a line hline e he)
  · rw [loopBody_eq]
    exact List.prefix_append _ _
  · intro hg g later
    simp [renderLoop, hg]
  · intro x text line w e pending hx he
    have he0 : e ≠ 0 := he
    simp [GLCheck, GLCheckErrorStatus, glGetError, World.call, World.print, errorLine, hx, he0]

theorem C6_frame_errors_pending_not_logged_witness :
    GL_INVALID_VALUE ∈ faultyFrame.faults 228 ∧
    GL_INVALID_VALUE ∈ (loopBody exampleDriver faultyFrame exampleApp).world.errors ∧
    (loopBody exampleDriver faultyFrame exampleApp).gQuit = false ∧
    renderLoop exampleDriver [firstFrame] (loopBody exampleDriver faultyFrame exampleApp) =
      renderLoop exampleDriver []
        (loopBody exampleDriver firstFrame (loopBody exampleDriver faultyFrame exampleApp)) :=
  ⟨by decide,
   (C6_frame_errors_pending_not_logged exampleDriver faultyFrame exampleApp).2.2.1 228
     (by decide) GL_INVALID_VALUE (by decide),
   by decide,
   (C6_frame_errors_pending_not_logged exampleDriver faultyFrame exampleApp).2.2.2.2.1
     (by decide) firstFrame []⟩

/-- C7: once `gQuit` is true, no event handled by `Input`, no call of `Input` and no pass of
the loop body makes it false again, and the loop runs no pass from a state in which it is
set, in particular none after a pass that ends with it set. -/
theorem C7_quit_flag_is_monotone (d : Driver) (f : FrameInput) (later : List FrameInput)
    (a : App) (hq : a.gQuit = true) :
    (∀ e, (handleEvent e a).gQuit = true) ∧
    (Input f a).gQuit = true ∧
    (loopBody d f a).gQuit = true ∧
    renderLoop d later a = a ∧
    renderLoop d later (loopBody d f a) = loopBody d f a := by
  have hb : (loopBody d f a).gQuit = true := by
    rw [loopBody_eq]
    simp [hq]
  refine ⟨?_, ?_, hb, ?_, ?_⟩
  · intro e
    rw [handleEvent_eq]
    simp [hq]
  · rw [Input_eq]
    simp [hq]
  · cases later with
    | nil => rfl
    | cons g rest => simp [renderLoop, hq]
  · cases later with
    | nil => rfl
    | cons g rest => simp [renderLoop, hb]

theorem C7_quit_flag_is_monotone_witness :
    (loopBody exampleDriver quitFrame exampleApp).gQuit = true ∧
    (Input sprintFrame (loopBody exampleDriver quitFrame exampleApp)).gQuit = true ∧
    renderLoop exampleDriver [firstFrame, sprintFrame]
      (loopBody exampleDriver quitFrame exampleApp) = loopBody exampleDriver quitFrame exampleApp :=
  ⟨by decide,
   (C7_quit_flag_is_monotone exampleDriver sprintFrame [firstFrame, sprintFrame]
      (loopBody exampleDriver quitFrame exampleApp) (by decide)).2.1,
   (C7_quit_flag_is_monotone exampleDriver sprintFrame [firstFrame, sprintFrame]
      (loopBody exampleDriver quitFrame exampleApp) (by decide)).2.2.2.1⟩

/-- C9, evaluated where it fails: after a pass in which the sprint key was not held, a pass
whose snapshot has the forward key and the sprint key both held calls `ProcessKeyboard`
while the camera's sprint flag is still false; no movement of that pass is applied with the flag
set, and the flag becomes true only at the end of `Input`. -/
theorem C9_failing_input_sprint_lags_one_pass :
    sprintFrame.state.SDL_SCANCODE_W = true ∧
    sprintFrame.state.SDL_SCANCODE_LSHIFT = true ∧
    Call.Camera_ProcessKeyboard Camera_Movement.FORWARD ((5032 - 5000) / 1000) false ∈
      (loopBody exampleDriver sprintFrame
        (loopBody exampleDriver firstFrame exampleApp)).world.calls.drop
        (loopBody exampleDriver firstFrame exampleApp).world.calls.length ∧
    (∀ direction dt, Call.Camera_ProcessKeyboard direction dt true ∉
      (loopBody exampleDriver sprintFrame
        (loopBody exampleDriver firstFrame exampleApp)).world.calls.drop
        (loopBody exampleDriver firstFrame exampleApp).world.calls.length) ∧
    (loopBody exampleDriver sprintFrame
      (loopBody exampleDriver firstFrame exampleApp)).camera.Sprint = true := by
  refine ⟨rfl, rfl, ?_, ?_, by decide⟩
  · rw [loopBody_calls_drop]
    have hl : (loopBody exampleDriver firstFrame exampleApp).lastFrame = 5000 := by
      rw [loopBody_eq]
      norm_num [firstFrame]
    have hs : (loopBody exampleDriver firstFrame exampleApp).camera.Sprint = false := by decide
    simp only [frameCalls, keyboardCalls, hl, hs, sprintFrame, forwardSprintKeys]
    norm_num
  · intro direction dt hmem
    rw [loopBody_calls_drop] at hmem
    have := (frameCalls_keyboard _ _ _ _ _ _ hmem).2
    have hs : (loopBody exampleDriver firstFrame exampleApp).camera.Sprint = false := by decide
    rw [hs] at this
    cases this

/-- The loop body is its first part followed by its second part. -/
theorem loopBody_split (d : Driver) (f : FrameInput) (a : App) :
    loopBody d f a = loopBodyFromUniforms d f (loopBodyThroughUse f a) := rfl

theorem loopBodyThroughUse_world (f : FrameInput) (a : App) :
    (loopBodyThroughUse f a).world.current = activeAfterUse a.world a.ourShader.ID ∧
    (loopBodyThroughUse f a).world.programs = a.world.programs ∧
    (loopBodyThroughUse f a).ourShader = a.ourShader := by
  simp only [loopBodyThroughUse, Input_eq, Shader_use_eq, App.call, App.fault, World.call]
  simp [activeAfterUse, World.isProgram, World.isLinked]

theorem setMat4Sites_current (d : Driver) (f : FrameInput) (a : App) :
    (setMat4Sites d f a).map (fun w => w.current) =
      [activeAfterUse a.world a.ourShader.ID, activeAfterUse a.world a.ourShader.ID,
       activeAfterUse a.world a.ourShader.ID] := by
  have h := (loopBodyThroughUse_world f a).1
  simp only [setMat4Sites, Shader_setMat4_eq, App.fault, List.map_cons, List.map_nil, h]

theorem activeAfterUse_linked (w : World) (ID : GLuint) (hl : w.isLinked ID = true) :
    activeAfterUse w ID = ID := by
  have hp : w.isProgram ID = true := by
    simp only [World.isLinked, World.isProgram, List.any_eq_true] at hl ⊢
    obtain ⟨po, hpo, hc⟩ := hl
    exact ⟨po, hpo, (Bool.and_eq_true _ _ ▸ hc).1⟩
  by_cases h0 : ID = 0
  · simp [activeAfterUse, h0]
  · simp [activeAfterUse, h0, hp, hl]

theorem activeAfterUse_unlinked (w : World) (ID : GLuint) (hl : w.isLinked ID = false)
    (h0 : ID ≠ 0) : activeAfterUse w ID = w.current := by
  cases hp : w.isProgram ID <;> simp [activeAfterUse, h0, hp, hl]

/-- C10, as stated, fails: when neither shader file can be opened the model shader's program is
a live but unlinked program with ID 1; `ourShader.use()` is called in the pass, `glUseProgram`
fails, and at all three `setMat4` call sites the active program is 0, not the program whose
uniform the call addresses. -/
theorem C10_counterexample :
    unlinkedApp.ourShader.ID = 1 ∧
    unlinkedApp.world.isProgram 1 = true ∧
    unlinkedApp.world.isLinked 1 = false ∧
    Call.glUseProgram 1 ∈
      (loopBodyThroughUse firstFrame unlinkedApp).world.calls.drop
        unlinkedApp.world.calls.length ∧
    (setMat4Sites exampleDriver firstFrame unlinkedApp).map (fun w => w.current) = [0, 0, 0] := by
  decide

/-- C10 (amended): in every pass the three `setMat4` calls come directly after `glUseProgram`
on the same shader's ID, no other activation occurring before or between them in the pass, and
every uniform write that takes effect lands in `ourShader`'s program. When that program is
linked, it is the active program at all three `setMat4` call sites. When it is not linked
(and its ID is not 0), `glUseProgram` fails: the active program at the three call sites is the
one that was active before the pass, and the pass writes no uniform. -/
theorem C10_setMat4_after_use_active_when_linked (d : Driver) (f : FrameInput) (a : App) :
    (∃ before,
      (loopBody d f a).world.calls.drop a.world.calls.length = before ++
        [Call.glUseProgram a.ourShader.ID,
         Call.glGetUniformLocation a.ourShader.ID "projection",
         Call.glUniformMatrix4fv (locationOf d a.world a.ourShader.ID "projection"),
         Call.glGetUniformLocation a.ourShader.ID "view",
         Call.glUniformMatrix4fv (locationOf d a.world a.ourShader.ID "view"),
         Call.glGetUniformLocation a.ourShader.ID "model",
         Call.glUniformMatrix4fv (locationOf d a.world a.ourShader.ID "model"),
         Call.Model_Draw a.ourShader.ID, Call.SDL_GL_SwapWindow] ∧
      ∀ c ∈ before, ∀ p, c ≠ Call.glUseProgram p) ∧
    (∀ wr ∈ (loopBody d f a).world.uniformWrites.drop a.world.uniformWrites.length,
      wr.1 = a.ourShader.ID ∧ wr.1 = (a.ourShader.use a.world).current) ∧
    (a.world.isLinked a.ourShader.ID = true →
      (setMat4Sites d f a).length = 3 ∧
      ∀ w ∈ setMat4Sites d f a, w.current = a.ourShader.ID) ∧
    (a.world.isLinked a.ourShader.ID = false → a.ourShader.ID ≠ 0 →
      (∀ w ∈ setMat4Sites d f a, w.current = a.world.current) ∧
      (loopBody d f a).world.uniformWrites = a.world.uniformWrites) := by
  have hsites := setMat4Sites_current d f a
  have hlen : (setMat4Sites d f a).length = 3 := rfl
  have hall : ∀ w ∈ setMat4Sites d f a,
      w.current = activeAfterUse a.world a.ourShader.ID := by
    intro w hw
    have hm : w.current ∈ (setMat4Sites d f a).map (fun w => w.current) :=
      List.mem_map_of_mem _ hw
    rw [hsites] at hm
    simp at hm
    exact hm
  refine ⟨?_, ?_, ?_, ?_⟩
  · refine ⟨[Call.SDL_GetTicks f.ticks] ++ pollCalls f.events ++
      keyboardCalls f.state (((f.ticks : ℚ) - a.lastFrame) / 1000) a.camera.Sprint ++
      [Call.glViewport a.gScreenWidth a.gScreenHeight, Call.glClearColor, Call.glClear], ?_, ?_⟩
    · rw [loopBody_calls_drop]
      simp [frameCalls, renderCalls]
    · intro c hc p hcp
      subst hcp
      simp only [List.mem_append] at hc
      rcases hc with ((h | h) | h) | h
      · simp at h
      · exact pollCalls_no_use _ _ h
      · exact keyboardCalls_no_use _ _ _ _ h
      · simp at h
  · intro wr hwr
    have hd : (loopBody d f a).world.uniformWrites.drop a.world.uniformWrites.length =
        writeOf (activeAfterUse a.world a.ourShader.ID)
          (locationOf d a.world a.ourShader.ID "projection") ++
        writeOf (activeAfterUse a.world a.ourShader.ID)
          (locationOf d a.world a.ourShader.ID "view") ++
        writeOf (activeAfterUse a.world a.ourShader.ID)
          (locationOf d a.world a.ourShader.ID "model") := by
      rw [loopBody_eq]
      simp only [List.append_assoc]
      exact List.drop_left _ _
    rw [hd] at hwr
    have hcur : (a.ourShader.use a.world).current = activeAfterUse a.world a.ourShader.ID := by
      rw [Shader_use_eq]
    rw [hcur]
    simp only [List.mem_append] at hwr
    rcases hwr with (h | h) | h
    · exact ⟨writeOf_target _ _ _ _ _ h, writeOf_active _ _ _ h⟩
    · exact ⟨writeOf_target _ _ _ _ _ h, writeOf_active _ _ _ h⟩
    · exact ⟨writeOf_target _ _ _ _ _ h, writeOf_active _ _ _ h⟩
  · intro hl
    exact ⟨hlen, fun w hw => (hall w hw).trans (activeAfterUse_linked _ _ hl)⟩
  · intro hl h0
    refine ⟨fun w hw => (hall w hw).trans (activeAfterUse_unlinked _ _ hl h0), ?_⟩
    rw [loopBody_eq]
    simp [writeOf, locationOf, hl]

theorem C10_setMat4_after_use_active_when_linked_witness :
    exampleApp.world.isLinked exampleApp.ourShader.ID = true ∧
    exampleApp.ourShader.ID = 1 ∧
    (setMat4Sites exampleDriver firstFrame exampleApp).length = 3 ∧
    ∀ w ∈ setMat4Sites exampleDriver firstFrame exampleApp, w.current = exampleApp.ourShader.ID :=
  ⟨by decide, by decide,
   (C10_setMat4_after_use_active_when_linked exampleDriver firstFrame exampleApp).2.2.1
     (by decide)⟩

end RenderPlayground
